import Mathlib

/-!
Shallow embedding of the YesuWay church SMS broadcasting system
(`src/app.py`, class `ProductionSmartMediaSystem`) and proofs about the
Broadcast & Reaction Aggregation Engine.

Modelling conventions:
* SQLite tables are Lean lists of rows; `AUTOINCREMENT` ids are modelled by
  explicit `next_*` counters on the database state.
* Timestamps are seconds (`Nat`); `CURRENT_TIMESTAMP` is a `now` parameter
  threaded through the operations.
* Python strings are Lean `String`s; the python string operations used by the
  code (`.split()`, `.strip()`, `.lower()`, `.upper()`, slicing, `in`) are
  re-implemented over `List Char` below, faithfully to python semantics
  (whitespace taken as `Char.isWhitespace`, case mapping per `Char`).
* `float` similarity arithmetic (`len/max + 0.5` compared against `0.3`) is
  modelled in `ℚ`; the quantities involved are small integer ratios, far from
  any double-rounding boundary.
* The Twilio transport is a function `to_phone → attempt → Bool` giving the
  success of each individual `messages.create` call; the message text does not
  influence the modelled outcome.  Wall-clock durations, logging, the Flask
  routes, and the media pipeline (R2 uploads) are outside the modelled core.
* Phone-number normalisation (`clean_phone_number`) is excluded as trivial;
  phones are taken as already-normalised strings.
-/

namespace ChurchSMS

/-! ### Python-style string primitives -/

/-- Python `str.split()` with no separator: maximal runs of non-whitespace. -/
def pywordsAux (acc : List Char) : List Char → List (List Char)
  | [] => if acc.isEmpty then [] else [acc.reverse]
  | c :: cs =>
    if c.isWhitespace then
      if acc.isEmpty then pywordsAux [] cs else acc.reverse :: pywordsAux [] cs
    else pywordsAux (c :: acc) cs

def pywords (l : List Char) : List (List Char) := pywordsAux [] l

/-- Python `str.strip()`. -/
def pystrip (l : List Char) : List Char :=
  ((l.dropWhile Char.isWhitespace).reverse.dropWhile Char.isWhitespace).reverse

def pystripS (s : String) : String := ⟨pystrip s.data⟩

/-- Python `str.lower()` (per-character case mapping). -/
def pylower (s : String) : List Char := s.data.map Char.toLower

/-- Python `str.upper()` (per-character case mapping). -/
def pyupper (s : String) : String := ⟨s.data.map Char.toUpper⟩

/-- Python substring test `needle in hay` (contiguous occurrence). -/
def list_contains (hay needle : List Char) : Bool :=
  (List.range (hay.length + 1)).any (fun i => needle.isPrefixOf (hay.drop i))

/-- Python slicing `s[:n]` over characters. -/
def pytake (n : Nat) (s : String) : String := ⟨s.data.take n⟩

/-- Python slicing `s[-n:]` over characters. -/
def pytakeRight (n : Nat) (s : String) : String := ⟨(s.data.reverse.take n).reverse⟩

/-! ### Generic list helpers -/

/-- Replace the first element satisfying `p` by its image under `f`
(models `UPDATE ... WHERE id = <id of the fetched row>`). -/
def update_first {α : Type} (p : α → Bool) (f : α → α) : List α → List α
  | [] => []
  | x :: xs => if p x then f x :: xs else x :: update_first p f xs

/-! ### Data model (`init_production_database`) -/

/-- A row of the `members` table (timestamps columns omitted; they are unused
by the modelled logic). -/
structure MemberRow where
  id : Nat
  phone_number : String
  name : String
  is_admin : Bool
  active : Bool
  message_count : Nat
deriving DecidableEq

/-- A row of the `broadcast_messages` table.  The media/processing columns are
omitted: the claims under verification only concern the identity columns and
the two derived reaction columns. -/
structure BroadcastRow where
  id : Nat
  from_phone : String
  from_name : String
  original_message : String
  reaction_summary : String
  last_reaction_update : Option Nat
  sent_at : Nat
deriving DecidableEq

/-- A row of the `message_reactions` table. -/
structure ReactionRow where
  original_message_id : Nat
  reactor_phone : String
  reactor_name : String
  reaction_emoji : String
  previous_reaction_emoji : Option String
  is_active : Bool
  created_at : Nat
  updated_at : Nat
deriving DecidableEq

/-- The database state (`production_church.db`).  `group_members` rows are
`(group_id, member_id)` pairs. -/
structure DB where
  members : List MemberRow
  group_members : List (Nat × Nat)
  broadcast_messages : List BroadcastRow
  message_reactions : List ReactionRow
  next_member_id : Nat
  next_message_id : Nat

/-- The identity of a broadcast row without its derived reaction columns
(spec §3: a Broadcast is immutable except for `reaction_summary` and
`last_reaction_update`). -/
def broadcast_identity (b : BroadcastRow) : Nat × String × String × String × Nat :=
  (b.id, b.from_phone, b.from_name, b.original_message, b.sent_at)

/-- Key of a reaction row: the `UNIQUE(original_message_id, reactor_phone)`
constraint columns. -/
def rkey (r : ReactionRow) : Nat × String := (r.original_message_id, r.reactor_phone)

/-- Central invariant of the reaction store: at most one row per
`(broadcast, reactor)` key. -/
def reaction_key_unique (l : List ReactionRow) : Prop := (l.map rkey).Nodup

/-! ### `get_reaction_count_summary` -/

/-- Ordering used by `ORDER BY count DESC, reaction_emoji`: `p` comes strictly
before `q`. -/
def count_desc_lt (p q : String × Nat) : Bool :=
  q.2 < p.2 || (p.2 == q.2 && decide (p.1 < q.1))

def insert_count_sorted (p : String × Nat) : List (String × Nat) → List (String × Nat)
  | [] => [p]
  | q :: qs => if count_desc_lt p q then p :: q :: qs else q :: insert_count_sorted p qs

def sort_counts (l : List (String × Nat)) : List (String × Nat) :=
  l.foldr insert_count_sorted []

/-- `SELECT reaction_emoji, COUNT(*) ... WHERE original_message_id = ? AND
is_active = 1 GROUP BY reaction_emoji ORDER BY count DESC, reaction_emoji`. -/
def reaction_counts (reactions : List ReactionRow) (message_id : Nat) :
    List (String × Nat) :=
  let active := reactions.filter
    (fun r => r.original_message_id == message_id && r.is_active)
  let emojis := (active.map (fun r => r.reaction_emoji)).dedup
  sort_counts (emojis.map
    (fun e => (e, (active.filter (fun r => r.reaction_emoji == e)).length)))

/-- `get_reaction_count_summary`: count-based reaction summary such as
`4 reactions: ❤️×2  👍×1  😂×1` (the `×n` part is omitted when `n = 1`, and the
whole summary is empty when there is no active reaction). -/
def get_reaction_count_summary (reactions : List ReactionRow) (message_id : Nat) :
    String :=
  let rc := reaction_counts reactions message_id
  if rc.isEmpty then ""
  else
    let total := (rc.map Prod.snd).sum
    let parts := rc.map (fun p => if p.2 == 1 then p.1 else p.1 ++ "×" ++ toString p.2)
    let sep := "  "
    let display := String.intercalate sep parts
    if total == 1 then "1 reaction: " ++ display
    else toString total ++ " reactions: " ++ display

/-! ### `should_send_reaction_update` -/

/-- The pure decision core of `should_send_reaction_update`, taking the active
reaction count, the action label and the broadcast's `last_reaction_update`
(seconds).  Mirrors the four checks of the python function in order. -/
def should_send_core (total_reactions : Nat) (action : String)
    (last_update : Option Nat) (now : Nat) : Bool :=
  if total_reactions == 1 then true
  else if action == "removed" then true
  else if total_reactions % 3 == 0 then true
  else
    match last_update with
    | some lu => decide (5 * 60 ≤ now - lu)
    | none => false

/-- `should_send_reaction_update` with its two database reads made explicit as
fallible results, mirroring the `try/except` structure: any read failure makes
the function return `True` (default to sending the update). -/
def should_send_reaction_update_checked (stats : Except String (Nat × Nat))
    (last_update_read : Except String (Option Nat)) (action : String) (now : Nat) :
    Bool :=
  match stats, last_update_read with
  | Except.ok (total_reactions, _unique_reactors), Except.ok lu =>
      should_send_core total_reactions action lu now
  | Except.error _, _ => true
  | _, Except.error _ => true

/-- The reaction-statistics query: `(COUNT(*), COUNT(DISTINCT reactor_phone))`
over active reactions on the message. -/
def reaction_stats (db : DB) (message_id : Nat) : Nat × Nat :=
  let active := db.message_reactions.filter
    (fun r => r.original_message_id == message_id && r.is_active)
  (active.length, (active.map (fun r => r.reactor_phone)).dedup.length)

/-- Reading `last_reaction_update` of the broadcast row.  When the row does not
exist, `cursor.fetchone()[0]` raises (`NoneType` is not subscriptable), which
the surrounding `except` turns into `True`; modelled as an error result. -/
def read_last_update (db : DB) (message_id : Nat) : Except String (Option Nat) :=
  match db.broadcast_messages.find? (fun b => b.id == message_id) with
  | none => Except.error ("fetchone returned no row")
  | some b => Except.ok b.last_reaction_update

/-- `should_send_reaction_update` over the database state. -/
def should_send_reaction_update (db : DB) (message_id : Nat) (action : String)
    (now : Nat) : Bool :=
  should_send_reaction_update_checked (Except.ok (reaction_stats db message_id))
    (read_last_update db message_id) action now

/-! ### `send_sms_production` -/

/-- Outcome of one per-recipient dispatch: whether it succeeded, how many
Twilio attempts were made, and the seconds slept between attempts. -/
structure SendResult where
  success : Bool
  attempts : Nat
  sleeps : List Nat
deriving DecidableEq

/-- The retry loop of `send_sms_production`: `attempt` is the 0-based loop
index, `remaining` the attempts left (`max_retries - attempt`).  On failure of
a non-final attempt it sleeps `1 * (attempt + 1)` seconds and retries; on
failure of the final attempt it reports failure with `attempts = max_retries`.
The `remaining = 0` base case is unreachable for `max_retries ≥ 1`. -/
def send_sms_loop (transport : Nat → Bool) (max_retries : Nat) :
    Nat → Nat → List Nat → SendResult
  | _attempt, 0, sleeps => { success := false, attempts := max_retries, sleeps := sleeps.reverse }
  | attempt, remaining + 1, sleeps =>
    if transport attempt then
      { success := true, attempts := attempt + 1, sleeps := sleeps.reverse }
    else if remaining == 0 then
      { success := false, attempts := max_retries, sleeps := sleeps.reverse }
    else
      send_sms_loop transport max_retries (attempt + 1) remaining ((attempt + 1) :: sleeps)

/-- `send_sms_production` with its default `max_retries = 3` (the only value
used by the source). -/
def send_sms_production (transport : Nat → Bool) : SendResult :=
  send_sms_loop transport 3 0 3 []

/-! ### `detect_reaction_pattern`

The four regular expressions of the source are implemented directly.  The verb
alternatives are mutually non-prefix literals, so regex alternation needs no
cross-alternative backtracking; `(.+)` (which does not match a newline) followed
by a quote-class character matches up to the *last* quote character occurring
before any newline (greedy backtracking); the patterns are unanchored at the
right end. -/

/-- The character class `[😀-🿿]` (U+1F600 to U+1FFFF). -/
def isReactionEmojiChar (c : Char) : Bool :=
  0x1F600 ≤ c.toNat && c.toNat ≤ 0x1FFFF

/-- The quote class `["\'“”]`. -/
def isQuoteChar (c : Char) : Bool :=
  c == '"' || c == '\'' || c == '“' || c == '”'

/-- Match a literal at the head of the input, returning the rest. -/
def matchLit (lit l : List Char) : Option (List Char) :=
  if lit.isPrefixOf l then some (l.drop lit.length) else none

/-- Given the characters after an opening quote, find the target of
`(.+)[quote]`: the longest non-empty newline-free prefix followed by a
quote-class character. -/
def lastQuoteTarget (rest : List Char) : Option (List Char) :=
  let region := rest.takeWhile (fun c => c != '\n')
  match ((List.range region.length).filter
      (fun j => decide (1 ≤ j) &&
        (match region.get? j with
         | some c => isQuoteChar c
         | none => false))).getLast? with
  | some j => some (region.take j)
  | none => none

/-- Match `\s*[quote](.+)[quote]` at the head of the input, returning the
quoted target text. -/
def matchQuoted (l : List Char) : Option (List Char) :=
  match l.dropWhile Char.isWhitespace with
  | [] => none
  | q :: rest => if isQuoteChar q then lastQuoteTarget rest else none

def verbs_pattern1 : List (List Char) :=
  ["Laughed at".data, "Emphasized".data, "Questioned".data, "Liked".data,
   "Loved".data, "Disliked".data]

def verbs_pattern4 : List (List Char) :=
  ["Loved".data, "Liked".data, "Disliked".data, "Emphasized".data,
   "Laughed at".data, "Questioned".data]

def lit_reacted : List Char := "Reacted".data

def lit_to : List Char := "to".data

/-- Match a list of verb literals followed by `\s*[q](.+)[q]`; group 1 is the
verb. -/
def matchVerbQuoted (verbs : List (List Char)) (l : List Char) :
    Option (List Char × List Char) :=
  match verbs.findSome? (fun v => (matchLit v l).map (fun rest => (v, rest))) with
  | some (v, rest) => (matchQuoted rest).map (fun tgt => (v, tgt))
  | none => none

/-- Pattern 1: `^(Laughed at|…|Disliked|Reacted\s*([😀-🿿]+)\s*to)\s*[q](.+)[q]`.
Returns (group 1 text, target text). -/
def match_pattern1 (l : List Char) : Option (List Char × List Char) :=
  match matchVerbQuoted verbs_pattern1 l with
  | some r => some r
  | none =>
    match matchLit lit_reacted l with
    | none => none
    | some r1 =>
      let r2 := r1.dropWhile Char.isWhitespace
      let run := r2.takeWhile isReactionEmojiChar
      if run.isEmpty then none
      else
        let r3 := (r2.drop run.length).dropWhile Char.isWhitespace
        match matchLit lit_to r3 with
        | none => none
        | some r4 =>
          let g1 := l.take (l.length - r4.length)
          (matchQuoted r4).map (fun tgt => (g1, tgt))

/-- Pattern 2: `^([😀-🿿]+)\s*$`. -/
def match_pattern2 (l : List Char) : Option (List Char) :=
  let run := l.takeWhile isReactionEmojiChar
  if run.isEmpty then none
  else if (l.drop run.length).all Char.isWhitespace then some run
  else none

/-- Pattern 3: `^([😀-🿿]+)\s*to\s*[q](.+)[q]`. -/
def match_pattern3 (l : List Char) : Option (List Char × List Char) :=
  let run := l.takeWhile isReactionEmojiChar
  if run.isEmpty then none
  else
    let r2 := (l.drop run.length).dropWhile Char.isWhitespace
    match matchLit lit_to r2 with
    | none => none
    | some r3 => (matchQuoted r3).map (fun tgt => (run, tgt))

/-- Pattern 4: `^(Loved|Liked|Disliked|Emphasized|Laughed at|Questioned)\s*[q](.+)[q]`
(every input it accepts is already accepted by pattern 1). -/
def match_pattern4 (l : List Char) : Option (List Char × List Char) :=
  matchVerbQuoted verbs_pattern4 l

/-- The detector's output. -/
structure ReactionData where
  emoji : String
  target_message_fragment : String
  reaction_type : String
deriving DecidableEq

/-- The `reaction_mapping` dict. -/
def reaction_mapping (k : String) : Option String :=
  if k == "Laughed at" then some ("😂")
  else if k == "Emphasized" then some ("‼️")
  else if k == "Questioned" then some ("❓")
  else if k == "Liked" then some ("👍")
  else if k == "Loved" then some ("❤️")
  else if k == "Disliked" then some ("👎")
  else none

/-- `re.search(r'([😀-🿿]+)', s)`: the first maximal run of emoji-class
characters. -/
def firstEmojiRun : List Char → Option (List Char)
  | [] => none
  | c :: cs =>
    if isReactionEmojiChar c then some (c :: cs.takeWhile isReactionEmojiChar)
    else firstEmojiRun cs

/-- The post-processing shared by all patterns: map the reaction type through
`reaction_mapping` (falling back to the type itself), clean the emoji with an
emoji-run search, and truncate the target to 100 characters. -/
def mk_reaction_data (reaction_type target : List Char) : ReactionData :=
  let emoji0 :=
    match reaction_mapping ⟨reaction_type⟩ with
    | some e => e.data
    | none => reaction_type
  let emoji :=
    match firstEmojiRun emoji0 with
    | some r => r
    | none => emoji0
  { emoji := ⟨emoji⟩,
    target_message_fragment := ⟨target.take 100⟩,
    reaction_type := ⟨reaction_type⟩ }

/-- `detect_reaction_pattern`: try the four patterns in order on the stripped
message; the empty message is rejected up front. -/
def detect_reaction_pattern (message_body : String) : Option ReactionData :=
  if message_body.data.isEmpty then none
  else
    let l := pystrip message_body.data
    match match_pattern1 l with
    | some (g1, tgt) => some (mk_reaction_data g1 tgt)
    | none =>
      match match_pattern2 l with
      | some g1 => some (mk_reaction_data g1 [])
      | none =>
        match match_pattern3 l with
        | some (g1, tgt) => some (mk_reaction_data g1 tgt)
        | none =>
          match match_pattern4 l with
          | some (g1, tgt) => some (mk_reaction_data g1 tgt)
          | none => none

/-! ### `find_recent_message_for_reaction` -/

/-- Distinct lower-cased whitespace tokens of a character list
(`set(s.lower().split())`). -/
def word_set (l : List Char) : List (List Char) := (pywords l).dedup

/-- The similarity score of a candidate message against the target fragment:
`|common_words| / max(|target_words|, |message_words|)`, plus `0.5` when the
lower-cased fragment is a substring of the lower-cased message. -/
def similarity_score (target_fragment original_message : String) : ℚ :=
  let tw := word_set (pylower target_fragment)
  let mw := word_set (pylower original_message)
  let common := tw.filter (fun w => mw.contains w)
  let base : ℚ := (common.length : ℚ) / ((max tw.length mw.length : Nat) : ℚ)
  if list_contains (pylower original_message) (pylower target_fragment)
  then base + 1 / 2 else base

/-- One iteration of the candidate loop: skip falsy messages, score only when
both token sets are non-empty, and keep the candidate when its score strictly
exceeds both the best so far and the `0.3` threshold. -/
def resolver_step_code (fragment : String) (st : Option BroadcastRow × ℚ)
    (b : BroadcastRow) : Option BroadcastRow × ℚ :=
  if b.original_message == "" then st
  else
    let tw := word_set (pylower fragment)
    let mw := word_set (pylower b.original_message)
    if tw ≠ [] ∧ mw ≠ [] then
      let score := similarity_score fragment b.original_message
      if score > st.2 ∧ score > 3 / 10 then (some b, score) else st
    else st

/-- The scoring-and-fallback part of `find_recent_message_for_reaction`, over
an already-fetched candidate list ordered most-recent-first: best match over
the loop, else the most recent candidate; `none` only when there is no
candidate. -/
def find_recent_message_core (recent : List BroadcastRow) (fragment : String) :
    Option BroadcastRow :=
  match recent with
  | [] => none
  | first :: _ =>
    match (recent.foldl (resolver_step_code fragment) (none, 0)).1 with
    | some b => some b
    | none => some first

def insert_desc_by_sent_at (b : BroadcastRow) :
    List BroadcastRow → List BroadcastRow
  | [] => [b]
  | c :: cs =>
    if c.sent_at < b.sent_at then b :: c :: cs else c :: insert_desc_by_sent_at b cs

/-- `ORDER BY sent_at DESC` (stable). -/
def sort_desc_by_sent_at (l : List BroadcastRow) : List BroadcastRow :=
  l.foldr insert_desc_by_sent_at []

/-- `find_recent_message_for_reaction`: fetch up to the 10 most recent
broadcasts of the last `24` hours not authored by the reactor, then resolve. -/
def find_recent_message_for_reaction (broadcasts : List BroadcastRow)
    (target_fragment reactor_phone : String) (now : Nat) : Option BroadcastRow :=
  let since := now - 24 * 3600
  let recent := (sort_desc_by_sent_at (broadcasts.filter
    (fun b => since < b.sent_at && b.from_phone != reactor_phone))).take 10
  find_recent_message_core recent target_fragment

/-! ### Member directory operations -/

/-- What `get_member_info_production` returns (the python error path yields
`id = None`, hence the `Option`). -/
structure MemberInfo where
  id : Option Nat
  name : String
  is_admin : Bool
  message_count : Nat
deriving DecidableEq

/-- `get_member_info_production`: look up the active member by phone; an
unknown phone is auto-registered as a new non-admin member in group 1. -/
def get_member_info_production (db : DB) (phone_number : String) :
    MemberInfo × DB :=
  match db.members.find? (fun m => m.phone_number == phone_number && m.active) with
  | some m =>
    ({ id := some m.id, name := m.name, is_admin := m.is_admin,
       message_count := m.message_count }, db)
  | none =>
    let name := "Member " ++ pytakeRight 4 phone_number
    let mid := db.next_member_id
    let row : MemberRow :=
      { id := mid, phone_number := phone_number, name := name, is_admin := false,
        active := true, message_count := 0 }
    ({ id := some mid, name := name, is_admin := false, message_count := 0 },
     { db with members := db.members ++ [row],
               group_members := db.group_members ++ [(1, mid)],
               next_member_id := mid + 1 })

/-- `get_all_active_members`: active members joined to `group_members`
(`SELECT DISTINCT` collapses the join multiplicity), optionally excluding one
phone.  The `ORDER BY name` clause is irrelevant to the verified claims and the
table order is kept. -/
def get_all_active_members (db : DB) (exclude_phone : Option String) :
    List MemberRow :=
  db.members.filter (fun m =>
    m.active && db.group_members.any (fun gm => gm.2 == m.id) &&
    (match exclude_phone with
     | some p => m.phone_number != p
     | none => true))

/-- `is_admin_production`. -/
def is_admin_production (db : DB) (phone_number : String) : Bool :=
  match db.members.find? (fun m => m.phone_number == phone_number && m.active) with
  | some m => m.is_admin
  | none => false

/-! ### `format_message_with_reactions` (text-only branch; media links are
outside the modelled core) -/

def format_message_with_reactions (reactions : List ReactionRow)
    (original_message sender_name : String) (message_id : Nat) : String :=
  let reaction_summary := get_reaction_count_summary reactions message_id
  let base_message := "💬 " ++ sender_name ++ ":\n" ++ original_message
  if reaction_summary == "" then base_message
  else base_message ++ "\n\n" ++ reaction_summary

/-! ### `broadcast_smart_message_production` -/

structure BroadcastOutcome where
  db : DB
  reply : Option String
  sent_count : Nat
  failed_count : Nat
  final_message : String

/-- `broadcast_smart_message_production`: resolve the sender (auto-registering
if needed), abort when there is no recipient, persist the broadcast row,
dispatch to every recipient with per-recipient retries, count outcomes, bump
the sender's message count, and return a confirmation only to admins.  The
wall-clock timing text of the admin confirmation is omitted. -/
def broadcast_smart_message_production (db : DB) (from_phone message_text : String)
    (transport : String → Nat → Bool) (now : Nat) : BroadcastOutcome :=
  let sdb := get_member_info_production db from_phone
  let sender := sdb.1
  let db1 := sdb.2
  let recipients := get_all_active_members db1 (some from_phone)
  if recipients.isEmpty then
    let msg := "No active congregation members found for broadcast."
    { db := db1, reply := some msg, sent_count := 0, failed_count := 0,
      final_message := "" }
  else
    let mid := db1.next_message_id
    let row : BroadcastRow :=
      { id := mid, from_phone := from_phone, from_name := sender.name,
        original_message := message_text, reaction_summary := "",
        last_reaction_update := none, sent_at := now }
    let db2 := { db1 with broadcast_messages := db1.broadcast_messages ++ [row],
                          next_message_id := mid + 1 }
    let final_message :=
      format_message_with_reactions db2.message_reactions message_text sender.name mid
    let results := recipients.map (fun m => send_sms_production (transport m.phone_number))
    let sent := results.countP (fun r => r.success)
    let failed := results.countP (fun r => !r.success)
    let db3 := { db2 with members := db2.members.map (fun m =>
      if m.phone_number == from_phone then
        { m with message_count := m.message_count + 1 }
      else m) }
    if sender.is_admin then
      let confirmation :=
        "✅ Enhanced broadcast completed\n📊 Delivered: " ++ toString sent ++ "/" ++
        toString recipients.length ++ "\n" ++
        (if 0 < failed then "⚠️ Failed deliveries: " ++ toString failed ++ "\n" else "") ++
        "🔄 Enhanced reactions enabled - count format"
      { db := db3, reply := some confirmation, sent_count := sent,
        failed_count := failed, final_message := final_message }
    else
      { db := db3, reply := none, sent_count := sent, failed_count := failed,
        final_message := final_message }

/-! ### `send_enhanced_reaction_update` -/

/-- Python slicing `s[:50]` plus ellipsis when longer. -/
def message_preview_50 (s : String) : String :=
  if 50 < s.data.length then pytake 50 s ++ "..." else s

/-- `send_enhanced_reaction_update`: broadcast the update message to every
member except the original sender; returns the (sent, failed) tally.  The
database is not modified. -/
def send_enhanced_reaction_update (db : DB) (target : BroadcastRow)
    (reaction_summary : String) (transport : String → Nat → Bool) : Nat × Nat :=
  let update_message :=
    "🔄 Reaction Update:\n💬 " ++ target.from_name ++ ": \"" ++
    message_preview_50 target.original_message ++ "\"\n\n" ++ reaction_summary
  let recipients := get_all_active_members db (some target.from_phone)
  let _msg := update_message
  let results := recipients.map (fun m => send_sms_production (transport m.phone_number))
  (results.countP (fun r => r.success), results.countP (fun r => !r.success))

/-! ### `handle_enhanced_reaction` -/

structure ReactionOutcome where
  db : DB
  action : String
  summary_stored : String
  update_sent : Bool
  confirmation : String

/-- The reaction-row key predicate used by the `SELECT`/`UPDATE` statements. -/
def reaction_keyP (message_id : Nat) (reactor_phone : String) :
    ReactionRow → Bool :=
  fun r => r.original_message_id == message_id && r.reactor_phone == reactor_phone

/-- `handle_enhanced_reaction`: apply the toggle/replace/insert transition for
`(target, reactor, emoji)`, store the recomputed summary on the broadcast row,
and decide (smart timing) whether to re-broadcast the update.

Faithful detail: `get_reaction_count_summary` opens a *separate* SQLite
connection while the reaction `INSERT`/`UPDATE` of the main connection is still
uncommitted (`conn.commit()` only runs afterwards); under SQLite isolation (WAL
journal mode, distinct connections) that reader sees the last committed
snapshot, i.e. the *pre-mutation* reaction rows.  The summary is therefore
computed over `pre_reactions`, not over the mutated rows.  The subsequent
`should_send_reaction_update` opens its connection after the commit and sees
the post-mutation state. -/
def handle_enhanced_reaction (db : DB) (reactor_phone : String)
    (reaction_data : ReactionData) (target_message : BroadcastRow)
    (transport : String → Nat → Bool) (now : Nat) : ReactionOutcome :=
  let rdb := get_member_info_production db reactor_phone
  let reactor := rdb.1
  let db1 := rdb.2
  let target_msg_id := target_message.id
  let new_emoji := reaction_data.emoji
  let keyP := reaction_keyP target_msg_id reactor_phone
  let pre_reactions := db1.message_reactions
  let step : List ReactionRow × String :=
    match pre_reactions.find? keyP with
    | some r =>
      if r.reaction_emoji == new_emoji && r.is_active then
        (update_first keyP
          (fun x => { x with is_active := false, updated_at := now }) pre_reactions,
         "removed")
      else if r.reaction_emoji == new_emoji && !r.is_active then
        (update_first keyP
          (fun x => { x with is_active := true, updated_at := now }) pre_reactions,
         "added")
      else
        (update_first keyP
          (fun x => { x with reaction_emoji := new_emoji,
                             previous_reaction_emoji := some x.reaction_emoji,
                             is_active := true, updated_at := now }) pre_reactions,
         "changed")
    | none =>
      (pre_reactions ++
        [{ original_message_id := target_msg_id, reactor_phone := reactor_phone,
           reactor_name := reactor.name, reaction_emoji := new_emoji,
           previous_reaction_emoji := none, is_active := true,
           created_at := now, updated_at := now }],
       "added")
  let action := step.2
  let reaction_summary := get_reaction_count_summary pre_reactions target_msg_id
  let broadcasts2 := update_first (fun b => b.id == target_msg_id)
    (fun b => { b with reaction_summary := reaction_summary,
                       last_reaction_update := some now }) db1.broadcast_messages
  let db2 := { db1 with message_reactions := step.1, broadcast_messages := broadcasts2 }
  let should := should_send_reaction_update db2 target_msg_id action now
  let _update_tally :=
    if should then some (send_enhanced_reaction_update db2 target_message reaction_summary transport)
    else none
  let confirmation :=
    if action == "removed" then "✅ Removed your " ++ new_emoji ++ " reaction"
    else if action == "changed" then "✅ Changed your reaction to " ++ new_emoji
    else "✅ Added " ++ new_emoji ++ " reaction"
  { db := db2, action := action, summary_stored := reaction_summary,
    update_sent := should, confirmation := confirmation }

/-! ### Admin commands -/

/-- `handle_add_member_production`: parse `ADD +phone First Last TO group`,
`INSERT OR REPLACE` the member (fresh autoincrement id) and `INSERT OR IGNORE`
the group membership. -/
def handle_add_member_production (db : DB) (message_body : String) : DB × String :=
  let parts := (pywords message_body.data).map (fun w => (⟨w⟩ : String))
  let fmtErr := "❌ Format: ADD +1234567890 First Last TO 1"
  if parts.length < 5 then (db, fmtErr)
  else if pyupper (parts.headD ("")) != "ADD" then (db, fmtErr)
  else if pyupper (parts.getD (parts.length - 2) ("")) != "TO" then (db, fmtErr)
  else
    match (parts.getLastD ("")).toInt? with
    | none => (db, "❌ Error adding member: invalid group")
    | some group_id =>
      if group_id != 1 && group_id != 2 && group_id != 3 then
        (db, "❌ Group must be 1, 2, or 3")
      else
        let phone := parts.getD 1 ""
        let sep := " "
        let name := String.intercalate sep ((parts.drop 2).dropLast.dropLast)
        let mid := db.next_member_id
        let row : MemberRow :=
          { id := mid, phone_number := phone, name := name, is_admin := false,
            active := true, message_count := 0 }
        let members2 := (db.members.filter (fun m => m.phone_number != phone)) ++ [row]
        let gm := (group_id.toNat, mid)
        let group_members2 :=
          if db.group_members.contains gm then db.group_members
          else db.group_members ++ [gm]
        ({ db with members := members2, group_members := group_members2,
                   next_member_id := mid + 1 },
         "✅ Added " ++ name ++ " to Group " ++ toString group_id.toNat ++
         "\n🔄 Enhanced reactions enabled")

def insert_desc_by_last_update (b : BroadcastRow) :
    List BroadcastRow → List BroadcastRow
  | [] => [b]
  | c :: cs =>
    if (c.last_reaction_update.getD 0) < (b.last_reaction_update.getD 0) then
      b :: c :: cs
    else c :: insert_desc_by_last_update b cs

def sort_desc_by_last_update (l : List BroadcastRow) : List BroadcastRow :=
  l.foldr insert_desc_by_last_update []

def message_preview_30 (s : String) : String :=
  if 30 < s.data.length then pytake 30 s ++ "..." else s

/-- `get_recent_reactions_summary` (admin `REACTIONS` command). -/
def get_recent_reactions_summary (db : DB) (now : Nat) : String :=
  let recent := (sort_desc_by_last_update (db.broadcast_messages.filter
    (fun b => b.reaction_summary != "" && now - 7 * 86400 < b.sent_at))).take 5
  if recent.isEmpty then "📊 No recent reactions in the past 7 days."
  else
    let header := "📊 RECENT REACTIONS (Last 7 days):\n"
    let msg_lines := recent.foldr (fun b acc =>
      ("💬 " ++ b.from_name ++ ": \"" ++ message_preview_30 b.original_message ++ "\"") ::
      ("   " ++ b.reaction_summary ++ "\n") :: acc) []
    let week := db.message_reactions.filter
      (fun r => r.is_active && now - 7 * 86400 < r.created_at)
    let total_reactions := week.length
    let messages_with_reactions := (week.map (fun r => r.original_message_id)).dedup.length
    let unique_reactors := (week.map (fun r => r.reactor_phone)).dedup.length
    let stat_lines :=
      ["📈 WEEK SUMMARY:",
       "• " ++ toString total_reactions ++ " total reactions",
       "• " ++ toString messages_with_reactions ++ " messages received reactions",
       "• " ++ toString unique_reactors ++ " people reacted"]
    let nl := "\n"
    String.intercalate nl (header :: msg_lines ++ stat_lines)

def admin_help_text : String :=
  "👑 ADMIN COMMANDS:\n\n👥 Member Management:\n• ADD +phone Name TO group - Add member\n" ++
  "• REACTIONS - View recent reactions\n• HELP - Show this help\n\n" ++
  "🔄 Enhanced Reaction System:\n• Count format: '4 reactions: ❤️×2 👍×1 😂×1'\n" ++
  "• Smart timing updates\n• Zero spam messaging\n\n🎯 Industry-level administration"

/-- `handle_admin_commands_production`: `None` for non-admins; otherwise
dispatch on the upper-cased stripped command. -/
def handle_admin_commands_production (db : DB) (from_phone message_body : String)
    (now : Nat) : Option (DB × String) :=
  if !is_admin_production db from_phone then none
  else
    let command := pyupper (pystripS message_body)
    if ("ADD ".data).isPrefixOf command.data then
      some (handle_add_member_production db message_body)
    else if command == "REACTIONS" then some (db, get_recent_reactions_summary db now)
    else if command == "HELP" then some (db, admin_help_text)
    else none

def member_help_text : String :=
  "📋 YESUWAY CHURCH SMS SYSTEM\n\n✅ Send messages to entire congregation\n" ++
  "✅ Share photos/videos (unlimited size)\n✅ Clean media links (no technical details)\n" ++
  "✅ Full quality preserved automatically\n✅ Enhanced reactions with count format\n\n" ++
  "📱 Text HELP for this message\n🔄 Reactions display as: '4 reactions: ❤️×2 👍×1 😂×1'\n" ++
  "🚫 Zero reaction spam - smart updates only\n🏛️ Production system - serving 24/7"

/-! ### `handle_incoming_message_production` -/

structure InboundOutcome where
  db : DB
  reply : Option String

/-- The non-reaction tail of the inbound handler: admin commands, the member
`HELP` command, then the default broadcast path. -/
def handle_non_reaction_path (db : DB) (from_phone body : String)
    (transport : String → Nat → Bool) (now : Nat) : InboundOutcome :=
  match handle_admin_commands_production db from_phone body now with
  | some (db2, resp) => { db := db2, reply := some resp }
  | none =>
    if pyupper body == "HELP" then { db := db, reply := some member_help_text }
    else
      let out := broadcast_smart_message_production db from_phone body transport now
      { db := out.db, reply := out.reply }

/-- `handle_incoming_message_production`: strip the body, resolve (and possibly
auto-register) the sender, check for a reaction pattern first; a detected
reaction with a resolved target is handled as a reaction, otherwise the message
falls through to the admin/help/broadcast path. -/
def handle_incoming_message_production (db : DB) (from_phone message_body : String)
    (transport : String → Nat → Bool) (now : Nat) : InboundOutcome :=
  let body := pystripS message_body
  let mdb := get_member_info_production db from_phone
  let db1 := mdb.2
  match detect_reaction_pattern body with
  | some reaction_data =>
    match find_recent_message_for_reaction db1.broadcast_messages
        reaction_data.target_message_fragment from_phone now with
    | some target_message =>
      let out := handle_enhanced_reaction db1 from_phone reaction_data target_message
        transport now
      { db := out.db, reply := some out.confirmation }
    | none => handle_non_reaction_path db1 from_phone body transport now
  | none => handle_non_reaction_path db1 from_phone body transport now

/-! ### DigestScheduler

Modelled from the spec: `src/app.py` contains no DigestScheduler component (no
silence timer, digest job, or `processed` flag appears in the source); the
model below follows the words of spec §2 (DigestScheduler), §4.6 (pause timer,
daily timer, processed flag) and the claim's own description. -/

/-- Modelled from the spec: a reaction as seen by the DigestScheduler, carrying
the `processed` boolean of §4.6 (distinct from `is_active`). -/
structure DigestReaction where
  id : Nat
  broadcast_id : Nat
  emoji : String
  is_active : Bool
  processed : Bool
  created_at : Nat
deriving DecidableEq

/-- Modelled from the spec: the scheduler's owned state - the single-shot
silence deadline and the reaction store view. -/
structure SchedulerState where
  silence_deadline : Option Nat
  reactions : List DigestReaction
deriving DecidableEq

def silence_delay_seconds : Nat := 30 * 60

def pause_digest_window_seconds : Nat := 2 * 60 * 60

/-- Modelled from the spec: the silence timer is reset to a fixed 30-minute
delay every time a non-reaction broadcast is accepted. -/
def reset_silence_timer (st : SchedulerState) (now : Nat) : SchedulerState :=
  { st with silence_deadline := some (now + silence_delay_seconds) }

/-- Modelled from the spec: the reactions a pause digest summarises - active,
not yet processed, created within the last 2 hours. -/
def pause_digest_eligible (st : SchedulerState) (now : Nat) : List DigestReaction :=
  st.reactions.filter (fun r =>
    r.is_active && !r.processed && now ≤ r.created_at + pause_digest_window_seconds)

/-- Modelled from the spec: marking a digest's reactions `processed`. -/
def mark_processed (st : SchedulerState) (ids : List Nat) : SchedulerState :=
  { st with reactions := st.reactions.map (fun r =>
      if ids.contains r.id then { r with processed := true } else r) }

/-- Modelled from the spec: the single-shot pause trigger - when the deadline
has passed (30 silent minutes), emit the pause digest, mark its reactions
processed and clear the timer. -/
def fire_pause_digest (st : SchedulerState) (now : Nat) :
    Option (List DigestReaction) × SchedulerState :=
  match st.silence_deadline with
  | some d =>
    if d ≤ now then
      let digest := pause_digest_eligible st now
      (some digest,
       { mark_processed st (digest.map (fun r => r.id)) with silence_deadline := none })
    else (none, st)
  | none => (none, st)

/-- Modelled from the spec: the daily trigger summarises the not-yet-processed
reactions and marks them processed. -/
def fire_daily_digest (st : SchedulerState) : List DigestReaction × SchedulerState :=
  let digest := st.reactions.filter (fun r => !r.processed)
  (digest, mark_processed st (digest.map (fun r => r.id)))

/-- Modelled from the spec: the events driving the scheduler. -/
inductive SchedEvent
  | broadcast_accepted (now : Nat)
  | pause_timer_tick (now : Nat)
  | daily_timer_fire

/-- Modelled from the spec: one scheduler step, returning the digest emitted by
the event (if any). -/
def sched_step (st : SchedulerState) : SchedEvent → SchedulerState × Option (List DigestReaction)
  | SchedEvent.broadcast_accepted now => (reset_silence_timer st now, none)
  | SchedEvent.pause_timer_tick now =>
    let fired := fire_pause_digest st now
    (fired.2, fired.1)
  | SchedEvent.daily_timer_fire =>
    let fired := fire_daily_digest st
    (fired.2, some fired.1)

/-- Modelled from the spec: running the scheduler over an event sequence,
collecting every emitted digest. -/
def sched_run (st : SchedulerState) : List SchedEvent → SchedulerState × List (List DigestReaction)
  | [] => (st, [])
  | e :: es =>
    let step := sched_step st e
    let rest := sched_run step.1 es
    (rest.1,
     (match step.2 with
      | some d => [d]
      | none => []) ++ rest.2)

/-! ### Spec-side definitions (for refinement comparisons)

These follow the words of the claims being checked, to be compared with the
definitions translated from the source above. -/

/-- The update-timing condition exactly as claim C4 states it: first reaction,
a removal, a multiple of three, or *more than* 5 minutes since the last update
*and* at least one reaction landed since then. -/
def update_timing_claim_condition (total : Nat) (action : String)
    (last_update : Option Nat) (now : Nat) (reaction_landed_since : Bool) : Prop :=
  total = 1 ∨ action = "removed" ∨ total % 3 = 0 ∨
    (∃ lu, last_update = some lu ∧ 5 * 60 < now - lu ∧ reaction_landed_since = true)

/-- One resolver iteration as claim C5 states it: *every* candidate is scored
by `similarity_score`, and the maximum-scoring candidate with score above `0.3`
is kept (strict improvement, so ties go to the earlier = more recent one). -/
def resolver_step_claim (fragment : String) (st : Option BroadcastRow × ℚ)
    (b : BroadcastRow) : Option BroadcastRow × ℚ :=
  let score := similarity_score fragment b.original_message
  if score > st.2 ∧ score > 3 / 10 then (some b, score) else st

/-- The resolver as claim C5 states it: an empty fragment returns the single
most recent candidate; otherwise the maximum-scoring candidate above the `0.3`
threshold (tie-broken by most recent), falling back to the most recent
candidate; `none` only on an empty candidate list. -/
def claim_resolver (recent : List BroadcastRow) (fragment : String) :
    Option BroadcastRow :=
  match recent with
  | [] => none
  | first :: _ =>
    if fragment == "" then some first
    else
      match (recent.foldl (resolver_step_claim fragment) (none, 0)).1 with
      | some b => some b
      | none => some first

/-- The observable state of the single reaction row for a
`(broadcast, reactor)` key: `(emoji, previous_emoji, is_active)`. -/
def reaction_state (reactions : List ReactionRow) (message_id : Nat)
    (reactor_phone : String) : Option (String × Option String × Bool) :=
  (reactions.find? (reaction_keyP message_id reactor_phone)).map
    (fun r => (r.reaction_emoji, r.previous_reaction_emoji, r.is_active))

/-! ### Concrete fixtures used by counterexamples, witnesses and evaluations -/

def fx_member (i : Nat) (p : String) (n : String) : MemberRow :=
  { id := i, phone_number := p, name := n, is_admin := false, active := true,
    message_count := 0 }

def fx_alice : MemberRow := fx_member 1 "+15550000001" "Alice"

def fx_bob : MemberRow := fx_member 2 "+15550000002" "Bob"

def fx_broadcast1 : BroadcastRow :=
  { id := 1, from_phone := "+15550000001", from_name := "Alice",
    original_message := "Good morning", reaction_summary := "",
    last_reaction_update := none, sent_at := 5 }

/-- A transport whose sends always succeed. -/
def tr_ok : String → Nat → Bool := fun _ _ => true

def rd_heart : ReactionData :=
  { emoji := "❤️", target_message_fragment := "Good morning",
    reaction_type := "Loved" }

/-- Database with two members and one fresh broadcast, no reactions. -/
def db_two_members : DB :=
  { members := [fx_alice, fx_bob], group_members := [(1, 1), (1, 2)],
    broadcast_messages := [fx_broadcast1], message_reactions := [],
    next_member_id := 3, next_message_id := 2 }

/-- Bob's first-ever reaction on broadcast 1 (fixture for C2's failing input
and several witnesses). -/
def c2_out : ReactionOutcome :=
  handle_enhanced_reaction db_two_members ("+15550000002") rd_heart fx_broadcast1
    tr_ok 60

/-- Bob reacting ❤️ a second and a third time (toggle off, then back on). -/
def c3_out2 : ReactionOutcome :=
  handle_enhanced_reaction c2_out.db ("+15550000002") rd_heart fx_broadcast1 tr_ok 120

def c3_out3 : ReactionOutcome :=
  handle_enhanced_reaction c3_out2.db ("+15550000002") rd_heart fx_broadcast1 tr_ok 180

def c4_target : BroadcastRow :=
  { id := 1, from_phone := "+15550000001", from_name := "M1",
    original_message := "hi", reaction_summary := "",
    last_reaction_update := none, sent_at := 5 }

/-- Five-member roster with a fresh broadcast for the C4 timing sequence. -/
def db_five : DB :=
  { members := [fx_member 1 "+15550000001" "M1", fx_member 2 "+15550000002" "M2",
                fx_member 3 "+15550000003" "M3", fx_member 4 "+15550000004" "M4",
                fx_member 5 "+15550000005" "M5"],
    group_members := [(1, 1), (1, 2), (1, 3), (1, 4), (1, 5)],
    broadcast_messages := [c4_target], message_reactions := [],
    next_member_id := 6, next_message_id := 2 }

/-- Reactions 1..4 by four distinct reactors, 10 seconds apart (well within 5
minutes), no removals. -/
def c4_step1 : ReactionOutcome :=
  handle_enhanced_reaction db_five ("+15550000002") rd_heart c4_target tr_ok 10

def c4_step2 : ReactionOutcome :=
  handle_enhanced_reaction c4_step1.db ("+15550000003") rd_heart c4_target tr_ok 20

def c4_step3 : ReactionOutcome :=
  handle_enhanced_reaction c4_step2.db ("+15550000004") rd_heart c4_target tr_ok 30

def c4_step4 : ReactionOutcome :=
  handle_enhanced_reaction c4_step3.db ("+15550000005") rd_heart c4_target tr_ok 40

/-- C5 counterexample candidates: the most recent message has no whitespace,
an older one does. -/
def c5_recent : BroadcastRow :=
  { id := 1, from_phone := "+15550000009", from_name := "N",
    original_message := "hello", reaction_summary := "",
    last_reaction_update := none, sent_at := 100 }

def c5_older : BroadcastRow :=
  { id := 2, from_phone := "+15550000009", from_name := "N",
    original_message := "a b", reaction_summary := "",
    last_reaction_update := none, sent_at := 50 }

/-- The whitespace-only (but non-empty) target fragment. -/
def c5_fragment : String := " "

/-- An ordinary fragment (with words) for the C5 witness. -/
def c5_ok_fragment : String := "Good morning"

/-- Five-member roster for the C6 fan-out example. -/
def db_c6 : DB :=
  { members := [fx_member 1 "+15550000001" "M1", fx_member 2 "+15550000002" "M2",
                fx_member 3 "+15550000003" "M3", fx_member 4 "+15550000004" "M4",
                fx_member 5 "+15550000005" "M5"],
    group_members := [(1, 1), (1, 2), (1, 3), (1, 4), (1, 5)],
    broadcast_messages := [], message_reactions := [],
    next_member_id := 6, next_message_id := 1 }

/-- Transport for which recipient #3's sends fail on every attempt. -/
def tr_fail3 : String → Nat → Bool := fun p _ => p != "+15550000003"

/-- Database with a single registered member (for the C7 unregistered-sender
scenario: the sender `+15550000099` is not in it). -/
def db_c7 : DB :=
  { members := [fx_alice], group_members := [(1, 1)], broadcast_messages := [],
    message_reactions := [], next_member_id := 2, next_message_id := 1 }

def c7_sender : String := "+15550000099"

def c7_body : String := "hello"

def c8_sender : String := "+15550000001"

/-- A bare-emoji message in the `[😀-🿿]` range, detected as a reaction. -/
def c8_body : String := "😂"

/-- A reactor distinct from the broadcast author of `db_two_members`. -/
def c8_reactor : String := "+15550000002"

/-- Database with two members and no prior broadcasts (for the C8 fall-through
counterexample: a detected reaction finds no target). -/
def db_c8 : DB :=
  { members := [fx_alice, fx_bob], group_members := [(1, 1), (1, 2)],
    broadcast_messages := [], message_reactions := [],
    next_member_id := 3, next_message_id := 1 }

/-- Scheduler fixture: two unprocessed active reactions, one recent and one
older than the 2-hour window, plus one already-processed reaction. -/
def c9_state : SchedulerState :=
  { silence_deadline := some 1800,
    reactions :=
      [{ id := 1, broadcast_id := 1, emoji := "❤️", is_active := true,
         processed := false, created_at := 3000 },
       { id := 2, broadcast_id := 1, emoji := "😂", is_active := true,
         processed := false, created_at := 100 },
       { id := 3, broadcast_id := 2, emoji := "👍", is_active := true,
         processed := true, created_at := 3500 }] }

/-! ## Helper lemmas -/

theorem update_first_length {α : Type} (p : α → Bool) (f : α → α) (l : List α) :
    (update_first p f l).length = l.length := by
  induction l with
  | nil => rfl
  | cons x xs ih => by_cases h : p x = true <;> simp [update_first, h, ih]

theorem map_update_first {α β : Type} (p : α → Bool) (f : α → α) (g : α → β)
    (l : List α) (hg : ∀ x, p x = true → g (f x) = g x) :
    (update_first p f l).map g = l.map g := by
  induction l with
  | nil => rfl
  | cons x xs ih =>
    by_cases h : p x = true
    · simp [update_first, h, hg x h]
    · simp [update_first, h, ih]

theorem find?_append_none {α : Type} {p : α → Bool} {l₁ : List α} (l₂ : List α)
    (h : l₁.find? p = none) : (l₁ ++ l₂).find? p = l₂.find? p := by
  induction l₁ with
  | nil => rfl
  | cons x xs ih =>
    by_cases hx : p x = true
    · simp [List.find?_cons_of_pos _ hx] at h
    · have h' : xs.find? p = none := by
        simpa [List.find?_cons_of_neg _ (by simpa using hx)] using h
      simp [List.find?_cons_of_neg _ (by simpa using hx), ih h']

theorem countP_add_countP_not {α : Type} (p : α → Bool) (l : List α) :
    l.countP p + l.countP (fun a => !p a) = l.length := by
  induction l with
  | nil => rfl
  | cons x xs ih => by_cases h : p x = true <;> simp [List.countP_cons, h] <;> omega

/-- `send_sms_production` fully unrolled on its three attempts. -/
theorem send_sms_production_eq (t : Nat → Bool) :
    send_sms_production t =
      if t 0 then { success := true, attempts := 1, sleeps := [] }
      else if t 1 then { success := true, attempts := 2, sleeps := [1] }
      else if t 2 then { success := true, attempts := 3, sleeps := [1, 2] }
      else { success := false, attempts := 3, sleeps := [1, 2] } := by
  cases h0 : t 0 <;> cases h1 : t 1 <;> cases h2 : t 2 <;>
    simp [send_sms_production, send_sms_loop, h0, h1, h2]

/-- Member auto-registration does not touch the broadcast, reaction or message
counter state. -/
theorem get_member_info_db_frame (db : DB) (p : String) :
    ((get_member_info_production db p).2).message_reactions = db.message_reactions ∧
    ((get_member_info_production db p).2).broadcast_messages = db.broadcast_messages ∧
    ((get_member_info_production db p).2).next_message_id = db.next_message_id := by
  unfold get_member_info_production
  cases h : db.members.find? (fun m => m.phone_number == p && m.active) <;> simp

/-! ## Claim C10 -/

/-- Claim C10: if either database read of the update-timing decision fails (for
example the reaction store is unavailable), `should_send_reaction_update`
returns `true` - on internal failure the system defaults to sending the
update. -/
theorem C10_error_defaults_to_send :
    (∀ (e : String) (lur : Except String (Option Nat)) (action : String) (now : Nat),
      should_send_reaction_update_checked (Except.error e) lur action now = true) ∧
    (∀ (stats : Except String (Nat × Nat)) (e : String) (action : String) (now : Nat),
      should_send_reaction_update_checked stats (Except.error e) action now = true) := by
  constructor
  · intro e lur action now
    cases lur <;> rfl
  · intro stats e action now
    cases stats with
    | error _ => rfl
    | ok p => cases p; rfl

/-! ## Claim C4 -/

/-- Claim C4 is false as stated: at exactly 5 minutes since the last update
(and with no removal, a total of 2 and no multiple of three), the code sends
the update (`>= 5` minutes) while the claim's condition ("more than 5 minutes
... and at least one reaction has landed since then") does not hold even if a
reaction did land. -/
theorem C4_counterexample :
    should_send_core 2 "added" (some 0) 300 = true ∧
    ¬ update_timing_claim_condition 2 "added" (some 0) 300 true := by
  constructor
  · rfl
  · intro h
    rcases h with h | h | h | ⟨lu, hlu, hgt, _⟩
    · exact absurd h (by decide)
    · exact absurd h (by decide)
    · exact absurd h (by decide)
    · cases hlu
      omega

/-- Claim C4, amended: the decision is true iff the total equals 1, or the
action is "removed", or the total is divisible by 3, or the broadcast has a
recorded `last_reaction_update` at least 5 minutes old (inclusive bound, with no
requirement that a reaction landed in between); and the 1,2,3,4 reaction
sequence on a fresh broadcast (within 5 minutes, no removals) triggers a
re-send after reactions 1 and 3 only. -/
theorem C4_amended_update_timing :
    (∀ (total : Nat) (action : String) (lu : Option Nat) (now : Nat),
      should_send_core total action lu now = true ↔
        (total = 1 ∨ action = "removed" ∨ total % 3 = 0 ∨
          ∃ u, lu = some u ∧ 5 * 60 ≤ now - u)) ∧
    (c4_step1.update_sent, c4_step2.update_sent,
     c4_step3.update_sent, c4_step4.update_sent) = (true, false, true, false) := by
  constructor
  · intro total action lu now
    unfold should_send_core
    by_cases h1 : (total == 1) = true
    · simp only [h1, if_true]
      simp only [beq_iff_eq] at h1
      simp [h1]
    · by_cases h2 : (action == "removed") = true
      · simp only [h1, h2, if_false, if_true]
        simp_all
      · by_cases h3 : (total % 3 == 0) = true
        · simp only [h1, h2, h3, if_false, if_true]
          simp_all
        · simp only [h1, h2, h3, if_false]
          cases lu with
          | none => simp_all
          | some u => simp_all
  · decide

/-! ## Claim C2 -/

/-- Claim C2 fails on the code (code bug): on Bob's first-ever reaction (❤️ on
broadcast 1), the summary persisted on the broadcast row is `""` - the
aggregation of the *pre-mutation* active reactions - while the aggregation of
the currently active reactions after the mutation is `"1 reaction: ❤️"`.  The
cause: `handle_enhanced_reaction` calls `get_reaction_count_summary`, which
opens a separate SQLite connection, before the mutating connection commits, so
the recomputation never sees the row just written. -/
theorem C2_stale_summary_eval :
    c2_out.summary_stored = "" ∧
    c2_out.db.broadcast_messages.map (fun b => b.reaction_summary) = [""] ∧
    get_reaction_count_summary c2_out.db.message_reactions 1 = "1 reaction: ❤️" := by
  decide

/-! ## Claim C6 -/

/-- A single dispatch succeeds exactly when one of its three attempts does. -/
theorem send_sms_success_iff (t : Nat → Bool) :
    (send_sms_production t).success = (t 0 || t 1 || t 2) := by
  rw [send_sms_production_eq]
  cases h0 : t 0 <;> cases h1 : t 1 <;> cases h2 : t 2 <;> simp [h0, h1, h2]

/-- The delivery tallies of a broadcast, as counts over the recipient list. -/
theorem broadcast_counts (db : DB) (from_phone text : String)
    (tr : String → Nat → Bool) (now : Nat) :
    (broadcast_smart_message_production db from_phone text tr now).sent_count =
      (get_all_active_members ((get_member_info_production db from_phone).2)
        (some from_phone)).countP
        (fun m => (send_sms_production (tr m.phone_number)).success) ∧
    (broadcast_smart_message_production db from_phone text tr now).failed_count =
      (get_all_active_members ((get_member_info_production db from_phone).2)
        (some from_phone)).countP
        (fun m => !(send_sms_production (tr m.phone_number)).success) := by
  simp only [broadcast_smart_message_production]
  by_cases hrec : (get_all_active_members ((get_member_info_production db from_phone).2)
      (some from_phone)).isEmpty
  · have h0 : get_all_active_members ((get_member_info_production db from_phone).2)
        (some from_phone) = [] := List.isEmpty_iff.mp hrec
    rw [h0]
    simp
  · simp only [hrec, Bool.false_eq_true, if_false]
    constructor
    · rw [apply_ite BroadcastOutcome.sent_count]
      simp only [ite_self, List.countP_map]
      rfl
    · rw [apply_ite BroadcastOutcome.failed_count]
      simp only [ite_self, List.countP_map]
      rfl

/-- Claim C6: each per-recipient dispatch makes at most 3 attempts, sleeping
`1s × attempt` between consecutive attempts, and a recipient is recorded
failed only after all 3 attempts; one recipient's permanent failure never
aborts the batch: over the recipient roster, `sent_count` counts the
recipients with some successful attempt, `failed_count` those failing all 3,
and the two always sum to the roster size.  Concretely, 5 recipients with #3
failing all attempts give `sent_count = 4`, `failed_count = 1`. -/
theorem C6_fanout_and_retry :
    (∀ (db : DB) (from_phone text : String) (tr : String → Nat → Bool) (now : Nat),
      (broadcast_smart_message_production db from_phone text tr now).sent_count =
        (get_all_active_members ((get_member_info_production db from_phone).2)
          (some from_phone)).countP
          (fun m => tr m.phone_number 0 || tr m.phone_number 1 || tr m.phone_number 2) ∧
      (broadcast_smart_message_production db from_phone text tr now).failed_count =
        (get_all_active_members ((get_member_info_production db from_phone).2)
          (some from_phone)).countP
          (fun m => !(tr m.phone_number 0 || tr m.phone_number 1 || tr m.phone_number 2)) ∧
      (broadcast_smart_message_production db from_phone text tr now).sent_count +
        (broadcast_smart_message_production db from_phone text tr now).failed_count =
        (get_all_active_members ((get_member_info_production db from_phone).2)
          (some from_phone)).length) ∧
    (∀ t : Nat → Bool,
      (send_sms_production t).sleeps =
        (List.range ((send_sms_production t).attempts - 1)).map (fun i => i + 1) ∧
      (send_sms_production t).attempts ≤ 3 ∧
      ((send_sms_production t).success || ((send_sms_production t).attempts == 3)) = true) ∧
    (broadcast_smart_message_production db_c6 ("+15550000000") ("hi all") tr_fail3 5).sent_count = 4 ∧
    (broadcast_smart_message_production db_c6 ("+15550000000") ("hi all") tr_fail3 5).failed_count = 1 := by
  refine ⟨?_, ?_, by decide, by decide⟩
  · intro db from_phone text tr now
    obtain ⟨hs, hf⟩ := broadcast_counts db from_phone text tr now
    have hsucc : (fun m : MemberRow =>
        (send_sms_production (tr m.phone_number)).success) =
        (fun m : MemberRow =>
          tr m.phone_number 0 || tr m.phone_number 1 || tr m.phone_number 2) :=
      funext fun m => send_sms_success_iff (tr m.phone_number)
    have hfail : (fun m : MemberRow =>
        !(send_sms_production (tr m.phone_number)).success) =
        (fun m : MemberRow =>
          !(tr m.phone_number 0 || tr m.phone_number 1 || tr m.phone_number 2)) :=
      funext fun m => by rw [send_sms_success_iff]
    rw [hsucc] at hs
    rw [hfail] at hf
    refine ⟨hs, hf, ?_⟩
    rw [hs, hf]
    exact countP_add_countP_not _ _
  · intro t
    rw [send_sms_production_eq]
    cases h0 : t 0 <;> cases h1 : t 1 <;> cases h2 : t 2 <;> simp [h0, h1, h2] <;> decide

/-! ## Claim C3 -/

theorem find?_append_singleton {α : Type} (p : α → Bool) (l : List α) (x : α)
    (h : l.find? p = none) (hx : p x = true) : (l ++ [x]).find? p = some x := by
  rw [find?_append_none _ h]
  simp [List.find?_cons_of_pos _ hx]

theorem find?_update_first {α : Type} (p : α → Bool) (f : α → α) (l : List α)
    (r : α) (h : l.find? p = some r) (hf : p (f r) = true) :
    (update_first p f l).find? p = some (f r) := by
  induction l with
  | nil => simp [List.find?] at h
  | cons x xs ih =>
    by_cases hx : p x = true
    · have hxr : x = r := by
        rw [List.find?_cons_of_pos _ hx] at h
        exact Option.some.inj h
      subst hxr
      simp [update_first, hx, List.find?_cons_of_pos _ hf]
    · have h' : xs.find? p = some r := by
        rwa [List.find?_cons_of_neg _ (by simpa using hx)] at h
      simp [update_first, hx, List.find?_cons_of_neg _ (by simpa using hx), ih h']

/-- Claim C3: applying a reaction follows the state-transition table with the
matching action label - no row inserts an active row ("added"); an active row
with equal emoji is deactivated ("removed"); an inactive row with equal emoji
is reactivated ("added"); a row with a different emoji gets the new emoji, the
old one as `previous_emoji`, and becomes active ("changed").  In particular the
same emoji applied three times in a row yields active, inactive, active. -/
theorem C3_transition_table :
    (∀ (db : DB) (phone : String) (rd : ReactionData) (target : BroadcastRow)
       (tr : String → Nat → Bool) (now : Nat),
      ((handle_enhanced_reaction db phone rd target tr now).action,
       reaction_state (handle_enhanced_reaction db phone rd target tr now).db.message_reactions
         target.id phone) =
        (match reaction_state db.message_reactions target.id phone with
         | none => ("added", some (rd.emoji, none, true))
         | some (e, pe, b) =>
           if e = rd.emoji ∧ b = true then ("removed", some (e, pe, false))
           else if e = rd.emoji ∧ b = false then ("added", some (e, pe, true))
           else ("changed", some (rd.emoji, some e, true)))) ∧
    (c2_out.action, c3_out2.action, c3_out3.action) = ("added", "removed", "added") ∧
    (reaction_state c2_out.db.message_reactions 1 "+15550000002",
     reaction_state c3_out2.db.message_reactions 1 "+15550000002",
     reaction_state c3_out3.db.message_reactions 1 "+15550000002") =
      (some ("❤️", none, true), some ("❤️", none, false), some ("❤️", none, true)) := by
  refine ⟨?_, by decide, by decide⟩
  intro db phone rd target tr now
  have hframe := (get_member_info_db_frame db phone).1
  simp only [handle_enhanced_reaction, reaction_state]
  rw [hframe]
  cases hfind : db.message_reactions.find? (reaction_keyP target.id phone) with
  | none =>
    simp only [hfind]
    rw [find?_append_singleton _ _ _ hfind (by simp [reaction_keyP])]
    rfl
  | some r =>
    have hp : reaction_keyP target.id phone r = true := List.find?_some hfind
    simp only [hfind, Option.map_some]
    by_cases hemoji : r.reaction_emoji = rd.emoji
    · by_cases hact : r.is_active = true
      · have hcond : (r.reaction_emoji == rd.emoji && r.is_active) = true := by
          simp [hemoji, hact]
        simp only [hcond, if_true]
        rw [find?_update_first _ _ _ _ hfind hp]
        simp [hemoji, hact]
      · have hact' : r.is_active = false := by
          cases hia : r.is_active
          · rfl
          · exact absurd hia hact
        have hcond : (r.reaction_emoji == rd.emoji && r.is_active) = false := by
          simp [hact']
        have hcond2 : (r.reaction_emoji == rd.emoji && !r.is_active) = true := by
          simp [hemoji, hact']
        simp only [hcond, hcond2, Bool.false_eq_true, if_false, if_true]
        rw [find?_update_first _ _ _ _ hfind hp]
        simp [hemoji, hact']
    · have hcond : (r.reaction_emoji == rd.emoji && r.is_active) = false := by
        simp [hemoji]
      have hcond2 : (r.reaction_emoji == rd.emoji && !r.is_active) = false := by
        simp [hemoji]
      simp only [hcond, hcond2, Bool.false_eq_true, if_false]
      rw [find?_update_first _ _ _ _ hfind hp]
      simp [hemoji]

/-! ## Claim C1 -/

theorem countP_beq_le_one_of_nodup {α : Type} [BEq α] [LawfulBEq α] (l : List α)
    (hnd : l.Nodup) (a : α) : l.countP (fun b => b == a) ≤ 1 := by
  induction l with
  | nil => simp
  | cons x xs ih =>
    rw [List.countP_cons]
    rcases List.nodup_cons.mp hnd with ⟨hx, hxs⟩
    by_cases hxa : x = a
    · subst hxa
      have hz : xs.countP (fun b => b == x) = 0 := by
        rw [List.countP_eq_zero]
        intro b hb hbx
        rw [beq_iff_eq] at hbx
        subst hbx
        exact hx hb
      simp [hz]
    · have hb : (x == a) = false := by simp [hxa]
      have := ih hxs
      simp only [hb, Bool.false_eq_true, if_false]
      omega

/-- With at most one row per key, at most one *active* row per key. -/
theorem countP_rkey_le_one (l : List ReactionRow) (hnd : (l.map rkey).Nodup)
    (mid : Nat) (ph : String) :
    l.countP (fun r =>
      r.original_message_id == mid && r.reactor_phone == ph && r.is_active) ≤ 1 := by
  have h1 : l.countP (fun r =>
      r.original_message_id == mid && r.reactor_phone == ph && r.is_active) ≤
      l.countP (fun r => rkey r == (mid, ph)) := by
    refine List.countP_mono_left (fun a _ hpa => ?_)
    simp only [Bool.and_eq_true, beq_iff_eq] at hpa
    simp [rkey, Prod.ext_iff, hpa.1.1, hpa.1.2]
  have h2 : (l.map rkey).countP (fun b => b == (mid, ph)) =
      l.countP (fun r => rkey r == (mid, ph)) := by
    rw [List.countP_map]
    rfl
  exact h1.trans (h2 ▸ countP_beq_le_one_of_nodup (l.map rkey) hnd (mid, ph))

/-- The reaction-row mutation of `handle_enhanced_reaction`, when a row exists
for the key, is an `update_first` with a key-preserving function. -/
theorem handle_enhanced_reactions_shape_some (db : DB) (phone : String)
    (rd : ReactionData) (target : BroadcastRow) (tr : String → Nat → Bool)
    (now : Nat) (r : ReactionRow)
    (hfind : db.message_reactions.find? (reaction_keyP target.id phone) = some r) :
    ∃ f : ReactionRow → ReactionRow,
      (∀ x, rkey (f x) = rkey x) ∧
      (handle_enhanced_reaction db phone rd target tr now).db.message_reactions =
        update_first (reaction_keyP target.id phone) f db.message_reactions := by
  have hframe := (get_member_info_db_frame db phone).1
  simp only [handle_enhanced_reaction]
  rw [hframe]
  simp only [hfind]
  by_cases c1 : (r.reaction_emoji == rd.emoji && r.is_active) = true
  · simp only [c1, if_true]
    exact ⟨fun x => { x with is_active := false, updated_at := now },
      fun x => rfl, rfl⟩
  · simp only [c1, Bool.false_eq_true, if_false]
    by_cases c2 : (r.reaction_emoji == rd.emoji && !r.is_active) = true
    · simp only [c2, if_true]
      exact ⟨fun x => { x with is_active := true, updated_at := now },
        fun x => rfl, rfl⟩
    · simp only [c2, Bool.false_eq_true, if_false]
      exact ⟨fun x => { x with reaction_emoji := rd.emoji, previous_reaction_emoji := some x.reaction_emoji, is_active := true, updated_at := now }, fun x => rfl, rfl⟩

/-- When no row exists for the key, the mutation is exactly one appended row
with that key. -/
theorem handle_enhanced_reactions_shape_none (db : DB) (phone : String)
    (rd : ReactionData) (target : BroadcastRow) (tr : String → Nat → Bool)
    (now : Nat)
    (hfind : db.message_reactions.find? (reaction_keyP target.id phone) = none) :
    (handle_enhanced_reaction db phone rd target tr now).db.message_reactions =
      db.message_reactions ++
        [{ original_message_id := target.id, reactor_phone := phone,
           reactor_name := ((get_member_info_production db phone).1).name,
           reaction_emoji := rd.emoji, previous_reaction_emoji := none,
           is_active := true, created_at := now, updated_at := now }] := by
  have hframe := (get_member_info_db_frame db phone).1
  simp only [handle_enhanced_reaction]
  rw [hframe]
  simp only [hfind]

/-- Claim C1: for every `(broadcast, reactor)` pair there is at most one
reaction row (hence at most one with `is_active = true`); the first reaction
inserts one row, and every subsequent reaction from the same reactor on the
same broadcast mutates that single row, never inserting a second. -/
theorem C1_single_row_per_reactor :
    ∀ (db : DB) (phone : String) (rd : ReactionData) (target : BroadcastRow)
      (tr : String → Nat → Bool) (now : Nat),
      reaction_key_unique db.message_reactions →
      reaction_key_unique
        (handle_enhanced_reaction db phone rd target tr now).db.message_reactions ∧
      (∀ (mid : Nat) (ph : String),
        (handle_enhanced_reaction db phone rd target tr now).db.message_reactions.countP
          (fun r => r.original_message_id == mid && r.reactor_phone == ph && r.is_active) ≤ 1) ∧
      ((db.message_reactions.find? (reaction_keyP target.id phone)).isSome = true →
        (handle_enhanced_reaction db phone rd target tr now).db.message_reactions.length =
          db.message_reactions.length) ∧
      (db.message_reactions.find? (reaction_keyP target.id phone) = none →
        (handle_enhanced_reaction db phone rd target tr now).db.message_reactions.length =
          db.message_reactions.length + 1) := by
  intro db phone rd target tr now hnd
  cases hfind : db.message_reactions.find? (reaction_keyP target.id phone) with
  | some r =>
    obtain ⟨f, hf, hshape⟩ :=
      handle_enhanced_reactions_shape_some db phone rd target tr now r hfind
    have hkeys : ((handle_enhanced_reaction db phone rd target tr now).db.message_reactions.map rkey) =
        db.message_reactions.map rkey := by
      rw [hshape]
      exact map_update_first _ _ _ _ (fun x _ => hf x)
    have hnd' : reaction_key_unique
        (handle_enhanced_reaction db phone rd target tr now).db.message_reactions := by
      unfold reaction_key_unique
      rw [hkeys]
      exact hnd
    refine ⟨hnd', fun mid ph => countP_rkey_le_one _ hnd' mid ph, fun _ => ?_, fun hn => ?_⟩
    · rw [hshape]
      exact update_first_length _ _ _
    · exact absurd hn (by simp)
  | none =>
    have hshape := handle_enhanced_reactions_shape_none db phone rd target tr now hfind
    have hnotin : (target.id, phone) ∉ db.message_reactions.map rkey := by
      intro hmem
      obtain ⟨x, hx, hxk⟩ := List.mem_map.mp hmem
      have := List.find?_eq_none.mp hfind x hx
      apply this
      simp only [rkey, Prod.mk.injEq] at hxk
      simp [reaction_keyP, hxk.1, hxk.2]
    have hnd' : reaction_key_unique
        (handle_enhanced_reaction db phone rd target tr now).db.message_reactions := by
      unfold reaction_key_unique
      rw [hshape, List.map_append]
      rw [List.nodup_append]
      refine ⟨hnd, by simp, ?_⟩
      intro a ha hb
      simp only [List.map_cons, List.map_nil, List.mem_singleton] at hb
      subst hb
      exact hnotin ha
    refine ⟨hnd', fun mid ph => countP_rkey_le_one _ hnd' mid ph, fun hs => ?_, fun _ => ?_⟩
    · simp at hs
    · rw [hshape]
      simp

/-- Witness for C1: the uniqueness hypothesis holds for the empty reaction
store of `db_two_members`, and the conclusions are concrete there. -/
theorem C1_single_row_per_reactor_witness :
    reaction_key_unique db_two_members.message_reactions ∧
    reaction_key_unique c2_out.db.message_reactions ∧
    c2_out.db.message_reactions.length = db_two_members.message_reactions.length + 1 := by
  have h := C1_single_row_per_reactor db_two_members ("+15550000002") rd_heart
    fx_broadcast1 tr_ok 60 (by unfold reaction_key_unique; decide)
  exact ⟨by unfold reaction_key_unique; decide, h.1, h.2.2.2 (by decide)⟩

/-! ## Claim C5 -/

theorem pywordsAux_eq_nil {l : List Char} : ∀ {acc : List Char},
    pywordsAux acc l = [] → acc = [] ∧ ∀ c ∈ l, c.isWhitespace = true := by
  induction l with
  | nil =>
    intro acc h
    simp only [pywordsAux] at h
    by_cases hacc : acc.isEmpty
    · exact ⟨List.isEmpty_iff.mp hacc, by intro c hc; simp at hc⟩
    · rw [if_neg hacc] at h
      simp at h
  | cons c cs ih =>
    intro acc h
    simp only [pywordsAux] at h
    by_cases hws : c.isWhitespace
    · rw [if_pos hws] at h
      by_cases hacc : acc.isEmpty
      · rw [if_pos hacc] at h
        have := ih h
        exact ⟨List.isEmpty_iff.mp hacc, by
          intro d hd
          rcases List.mem_cons.mp hd with hd | hd
          · subst hd; exact hws
          · exact this.2 d hd⟩
      · rw [if_neg hacc] at h
        simp at h
    · rw [if_neg hws] at h
      have := (ih h).1
      simp at this

theorem pywords_eq_nil_all_ws {l : List Char} (h : pywords l = []) :
    ∀ c ∈ l, c.isWhitespace = true := (pywordsAux_eq_nil h).2

theorem pywords_all_ws_eq_nil : ∀ (l : List Char),
    (∀ c ∈ l, c.isWhitespace = true) → pywords l = [] := by
  intro l h
  induction l with
  | nil => rfl
  | cons c cs ih =>
    have hc : c.isWhitespace = true := h c (List.mem_cons_self c cs)
    have hcs : ∀ d ∈ cs, d.isWhitespace = true :=
      fun d hd => h d (List.mem_cons_of_mem c hd)
    have hrec := ih hcs
    unfold pywords at hrec ⊢
    unfold pywordsAux
    rw [if_pos hc]
    simpa using hrec

theorem exists_non_ws_of_pywords_ne_nil {l : List Char} (h : pywords l ≠ []) :
    ∃ c ∈ l, ¬ c.isWhitespace = true := by
  by_contra hc
  push_neg at hc
  exact h (pywords_all_ws_eq_nil l hc)

theorem mem_of_isPrefixOf {needle l : List Char}
    (h : needle.isPrefixOf l = true) : ∀ c ∈ needle, c ∈ l := by
  induction needle generalizing l with
  | nil => intro c hc; simp at hc
  | cons a as ih =>
    cases l with
    | nil => simp [List.isPrefixOf] at h
    | cons b bs =>
      simp only [List.isPrefixOf, Bool.and_eq_true, beq_iff_eq] at h
      intro c hc
      rcases List.mem_cons.mp hc with hc | hc
      · subst hc
        rw [h.1]
        exact List.mem_cons_self b bs
      · exact List.mem_cons_of_mem b (ih h.2 c hc)

theorem mem_of_list_contains {hay needle : List Char}
    (h : list_contains hay needle = true) : ∀ c ∈ needle, c ∈ hay := by
  unfold list_contains at h
  rw [List.any_eq_true] at h
  obtain ⟨i, _, hp⟩ := h
  intro c hc
  exact List.drop_subset i hay (mem_of_isPrefixOf hp c hc)

theorem list_contains_eq_false_of_ws {hay needle : List Char}
    (hws : ∀ c ∈ hay, c.isWhitespace = true)
    (hnw : ∃ c ∈ needle, ¬ c.isWhitespace = true) :
    list_contains hay needle = false := by
  by_contra h
  rw [Bool.not_eq_false] at h
  obtain ⟨c, hc, hcw⟩ := hnw
  exact hcw (hws c (mem_of_list_contains h c hc))

/-- A candidate whose message tokenises to nothing scores 0 against a fragment
that has at least one token. -/
theorem similarity_score_eq_zero_of_mw_nil (fragment msg : String)
    (htw : word_set (pylower fragment) ≠ [])
    (hmw : word_set (pylower msg) = []) :
    similarity_score fragment msg = 0 := by
  have hpw : pywords (pylower msg) = [] := by
    have := hmw
    unfold word_set at this
    exact (List.dedup_eq_nil _).mp this
  have hfr : pywords (pylower fragment) ≠ [] := by
    intro hh
    apply htw
    unfold word_set
    rw [hh]
    rfl
  have hbonus : list_contains (pylower msg) (pylower fragment) = false :=
    list_contains_eq_false_of_ws (pywords_eq_nil_all_ws hpw)
      (exists_non_ws_of_pywords_ne_nil hfr)
  simp only [similarity_score]
  rw [hmw, hbonus]
  simp

theorem resolver_step_eq (fragment : String)
    (htw : word_set (pylower fragment) ≠ []) (st : Option BroadcastRow × ℚ)
    (b : BroadcastRow) :
    resolver_step_code fragment st b = resolver_step_claim fragment st b := by
  by_cases hmw : word_set (pylower b.original_message) = []
  · have hscore : similarity_score fragment b.original_message = 0 :=
      similarity_score_eq_zero_of_mw_nil _ _ htw hmw
    have hnotupd : ¬(similarity_score fragment b.original_message > st.2 ∧
        similarity_score fragment b.original_message > 3 / 10) := by
      rw [hscore]
      rintro ⟨_, h2⟩
      norm_num at h2
    simp only [resolver_step_code, resolver_step_claim]
    rw [if_neg hnotupd]
    by_cases hmsg : (b.original_message == "") = true
    · rw [if_pos hmsg]
    · rw [if_neg hmsg, if_neg (fun hand => hand.2 hmw)]
  · have hmsg : (b.original_message == "") = false := by
      by_contra hh
      rw [Bool.not_eq_false, beq_iff_eq] at hh
      apply hmw
      rw [hh]
      rfl
    simp only [resolver_step_code, resolver_step_claim, hmsg, Bool.false_eq_true,
      if_false]
    rw [if_pos ⟨htw, hmw⟩]

theorem resolver_fold_eq (fragment : String)
    (htw : word_set (pylower fragment) ≠ []) :
    ∀ (recent : List BroadcastRow) (st : Option BroadcastRow × ℚ),
      recent.foldl (resolver_step_code fragment) st =
        recent.foldl (resolver_step_claim fragment) st := by
  intro recent
  induction recent with
  | nil => intro st; rfl
  | cons x xs ih =>
    intro st
    simp only [List.foldl_cons]
    rw [resolver_step_eq fragment htw st x]
    exact ih _

theorem resolver_step_skip (fragment : String)
    (htw : word_set (pylower fragment) = []) (st : Option BroadcastRow × ℚ)
    (b : BroadcastRow) : resolver_step_code fragment st b = st := by
  simp only [resolver_step_code]
  by_cases hmsg : (b.original_message == "") = true
  · rw [if_pos hmsg]
  · rw [if_neg hmsg, if_neg (fun hand => hand.1 htw)]

/-- Claim C5 is false as stated: for the non-empty, whitespace-only fragment
`" "` the code never scores any candidate (its token set is empty) and falls
back to the most recent candidate, while the claim's scoring would give the
older candidate `"a b"` a substring bonus of `0.5 > 0.3` and select it. -/
theorem C5_counterexample :
    find_recent_message_core [c5_recent, c5_older] c5_fragment = some c5_recent ∧
    claim_resolver [c5_recent, c5_older] c5_fragment = some c5_older ∧
    c5_recent ≠ c5_older := by
  have htw : word_set (pylower c5_fragment) = [] := by decide
  have hrecent0 : similarity_score c5_fragment c5_recent.original_message = 0 := by
    simp only [similarity_score]
    rw [show list_contains (pylower c5_recent.original_message) (pylower c5_fragment) = false
      from by decide]
    rw [show word_set (pylower c5_fragment) = ([] : List (List Char)) from by decide]
    simp
  have holder : similarity_score c5_fragment c5_older.original_message = 1 / 2 := by
    simp only [similarity_score]
    rw [show list_contains (pylower c5_older.original_message) (pylower c5_fragment) = true
      from by decide]
    rw [show word_set (pylower c5_fragment) = ([] : List (List Char)) from by decide]
    simp
  refine ⟨?_, ?_, by decide⟩
  · simp only [find_recent_message_core, List.foldl_cons, List.foldl_nil,
      resolver_step_skip c5_fragment htw]
  · simp only [claim_resolver,
      show (c5_fragment == "") = false from by decide, Bool.false_eq_true, if_false,
      List.foldl_cons, List.foldl_nil]
    simp only [resolver_step_claim, hrecent0, holder]
    rw [if_neg (by norm_num : ¬((0 : ℚ) > 0 ∧ (0 : ℚ) > 3 / 10))]
    rw [if_pos (by norm_num : ((1 : ℚ) / 2 > 0 ∧ (1 : ℚ) / 2 > 3 / 10))]

/-- Claim C5, amended: for a target fragment containing at least one
whitespace-delimited token, the resolver returns exactly the claim's described
selection (maximum `similarity_score` above `0.3`, tie-broken by most recent,
with fallback to the most recent candidate); for a fragment with no tokens
(empty or whitespace-only) it returns the single most recent candidate; and it
returns `none` exactly when the candidate list is empty. -/
theorem C5_amended_resolver :
    (∀ (recent : List BroadcastRow) (fragment : String),
      word_set (pylower fragment) ≠ [] →
      find_recent_message_core recent fragment = claim_resolver recent fragment) ∧
    (∀ (recent : List BroadcastRow) (fragment : String),
      word_set (pylower fragment) = [] →
      find_recent_message_core recent fragment = recent.head?) ∧
    (∀ (recent : List BroadcastRow) (fragment : String),
      find_recent_message_core recent fragment = none ↔ recent = []) := by
  refine ⟨?_, ?_, ?_⟩
  · intro recent fragment htw
    cases recent with
    | nil => rfl
    | cons first rest =>
      have hfr : (fragment == "") = false := by
        by_contra hh
        rw [Bool.not_eq_false, beq_iff_eq] at hh
        apply htw
        rw [hh]
        rfl
      simp only [find_recent_message_core, claim_resolver, hfr, Bool.false_eq_true,
        if_false]
      rw [resolver_fold_eq fragment htw]
  · intro recent fragment htw
    cases recent with
    | nil => rfl
    | cons first rest =>
      have hfold : ∀ (l : List BroadcastRow) (st : Option BroadcastRow × ℚ),
          l.foldl (resolver_step_code fragment) st = st := by
        intro l
        induction l with
        | nil => intro st; rfl
        | cons x xs ih =>
          intro st
          simp only [List.foldl_cons]
          rw [resolver_step_skip fragment htw st x]
          exact ih st
      simp only [find_recent_message_core, hfold]
      rfl
  · intro recent fragment
    cases recent with
    | nil => simp [find_recent_message_core]
    | cons first rest =>
      simp only [find_recent_message_core]
      constructor
      · intro h
        cases hm : ((first :: rest).foldl (resolver_step_code fragment) (none, 0)).1 with
        | some b => rw [hm] at h; simp at h
        | none => rw [hm] at h; simp at h
      · intro h
        exact absurd h (by simp)

/-- Witness for C5: a fragment with tokens where code and claim resolver agree
on a concrete candidate list. -/
theorem C5_amended_resolver_witness :
    word_set (pylower c5_ok_fragment) ≠ [] ∧
    find_recent_message_core [c5_recent, c5_older] c5_ok_fragment =
      claim_resolver [c5_recent, c5_older] c5_ok_fragment := by
  refine ⟨by decide, C5_amended_resolver.1 [c5_recent, c5_older] c5_ok_fragment (by decide)⟩

/-! ## Claim C8 -/

/-- Handling a reaction only rewrites the derived columns of broadcast rows:
the identity columns of every row are untouched and no row is added or
removed. -/
theorem handle_enhanced_broadcast_identity (db : DB) (phone : String)
    (rd : ReactionData) (target : BroadcastRow) (tr : String → Nat → Bool)
    (now : Nat) :
    (handle_enhanced_reaction db phone rd target tr now).db.broadcast_messages.map
        broadcast_identity =
      db.broadcast_messages.map broadcast_identity := by
  have hframe := (get_member_info_db_frame db phone).2.1
  simp only [handle_enhanced_reaction]
  rw [hframe]
  exact map_update_first _ _ _ _ (fun x _ => rfl)

/-- Claim C8 is false as stated: a message detected as a reaction (bare 😂)
that resolves no target (no prior broadcasts exist) falls through to the normal
broadcast path and creates a Broadcast row. -/
theorem C8_counterexample :
    (detect_reaction_pattern (pystripS c8_body)).isSome = true ∧
    (handle_incoming_message_production db_c8 c8_sender c8_body tr_ok 1000).db.broadcast_messages.length =
      db_c8.broadcast_messages.length + 1 := by
  exact ⟨by decide, by decide⟩

/-- Claim C8, amended: for every inbound message the detector classifies as a
reaction *for which a target message is found*, processing leaves the set of
Broadcast rows unchanged up to the two derived reaction columns - no Broadcast
is created or deleted.  (When no target is found, the message falls through to
the broadcast path - see the counterexample.) -/
theorem C8_amended_reaction_frame :
    ∀ (db : DB) (phone body : String) (tr : String → Nat → Bool) (now : Nat)
      (rd : ReactionData),
      detect_reaction_pattern (pystripS body) = some rd →
      (find_recent_message_for_reaction db.broadcast_messages
        rd.target_message_fragment phone now).isSome = true →
      (handle_incoming_message_production db phone body tr now).db.broadcast_messages.map
          broadcast_identity =
        db.broadcast_messages.map broadcast_identity := by
  intro db phone body tr now rd hdet hfound
  have hframe := (get_member_info_db_frame db phone).2.1
  simp only [handle_incoming_message_production, hdet]
  rw [hframe]
  cases htgt : find_recent_message_for_reaction db.broadcast_messages
      rd.target_message_fragment phone now with
  | none =>
    rw [htgt] at hfound
    simp at hfound
  | some target =>
    simp only [htgt]
    rw [handle_enhanced_broadcast_identity]
    rw [hframe]

/-- Witness for C8: Bob's bare 😂 on the existing broadcast of
`db_two_members` is detected, resolves to broadcast 1 (most-recent fallback for
the empty fragment), and leaves the broadcast identities untouched. -/
theorem C8_amended_reaction_frame_witness :
    (handle_incoming_message_production db_two_members c8_reactor c8_body tr_ok 1000).db.broadcast_messages.map
        broadcast_identity =
      db_two_members.broadcast_messages.map broadcast_identity :=
  C8_amended_reaction_frame db_two_members c8_reactor c8_body tr_ok 1000
    (mk_reaction_data (String.data c8_body) []) (by decide) (by decide)

/-! ## Claim C7 -/

theorem get_member_info_register (db : DB) (phone : String)
    (h : db.members.find? (fun m => m.phone_number == phone && m.active) = none) :
    get_member_info_production db phone =
      ({ id := some db.next_member_id, name := "Member " ++ pytakeRight 4 phone,
         is_admin := false, message_count := 0 },
       { db with
         members := db.members ++
           [{ id := db.next_member_id, phone_number := phone, name := "Member " ++ pytakeRight 4 phone, is_admin := false, active := true, message_count := 0 }],
         group_members := db.group_members ++ [(1, db.next_member_id)],
         next_member_id := db.next_member_id + 1 }) := by
  simp only [get_member_info_production, h]

theorem get_member_info_found (db : DB) (phone : String) (m : MemberRow)
    (h : db.members.find? (fun x => x.phone_number == phone && x.active) = some m) :
    get_member_info_production db phone =
      ({ id := some m.id, name := m.name, is_admin := m.is_admin,
         message_count := m.message_count }, db) := by
  simp only [get_member_info_production, h]

/-- A broadcast by a registered non-admin sender with at least one recipient
appends exactly one broadcast row, returns no reply, and only bumps the
sender's message count on the member table. -/
theorem broadcast_smart_creates (db : DB) (phone text : String)
    (tr : String → Nat → Bool) (now : Nat) (m : MemberRow)
    (hm : db.members.find? (fun x => x.phone_number == phone && x.active) = some m)
    (hadmin : m.is_admin = false)
    (hrec : ¬(get_all_active_members db (some phone)).isEmpty = true) :
    (broadcast_smart_message_production db phone text tr now).db.broadcast_messages =
      db.broadcast_messages ++
        [{ id := db.next_message_id, from_phone := phone, from_name := m.name, original_message := text, reaction_summary := "", last_reaction_update := none, sent_at := now }] ∧
    (broadcast_smart_message_production db phone text tr now).reply = none ∧
    (broadcast_smart_message_production db phone text tr now).db.members =
      db.members.map (fun x =>
        if x.phone_number == phone then
          { x with message_count := x.message_count + 1 }
        else x) := by
  simp only [broadcast_smart_message_production, get_member_info_found db phone m hm]
  rw [if_neg hrec]
  simp only [hadmin, Bool.false_eq_true, if_false]
  exact ⟨by trivial, by trivial, by trivial⟩

/-- Claim C7 is false as stated: the unregistered sender `+15550000099` sending
"hello" is not rejected - a Broadcast row is created and the reply is `None`
(no rejection text; the sender was silently auto-registered). -/
theorem C7_counterexample :
    db_c7.members.find? (fun m => m.phone_number == c7_sender && m.active) = none ∧
    (handle_incoming_message_production db_c7 c7_sender c7_body tr_ok 1000).db.broadcast_messages.length =
      db_c7.broadcast_messages.length + 1 ∧
    (handle_incoming_message_production db_c7 c7_sender c7_body tr_ok 1000).reply = none := by
  refine ⟨by decide, by decide, by decide⟩

/-- Claim C7, amended: an unregistered sender of a non-reaction, non-HELP text
is *auto-registered* as an active non-admin member and the text is broadcast:
exactly one Broadcast row from that sender is appended (given at least one
other active recipient), and no reply is returned. -/
theorem C7_amended_autoregister :
    ∀ (db : DB) (phone body : String) (tr : String → Nat → Bool) (now : Nat),
      (∀ m ∈ db.members, m.phone_number ≠ phone) →
      detect_reaction_pattern (pystripS body) = none →
      pyupper (pystripS body) ≠ "HELP" →
      ¬(get_all_active_members ((get_member_info_production db phone).2)
          (some phone)).isEmpty = true →
      ∃ row : BroadcastRow,
        (handle_incoming_message_production db phone body tr now).db.broadcast_messages =
          db.broadcast_messages ++ [row] ∧
        row.from_phone = phone ∧
        row.original_message = pystripS body ∧
        (handle_incoming_message_production db phone body tr now).reply = none ∧
        ∃ m ∈ (handle_incoming_message_production db phone body tr now).db.members,
          m.phone_number = phone ∧ m.is_admin = false ∧ m.active = true := by
  intro db phone body tr now hunreg hdet hhelp hrec
  have hfind : db.members.find? (fun m => m.phone_number == phone && m.active) = none := by
    rw [List.find?_eq_none]
    intro x hx
    simp [hunreg x hx]
  have hreg := get_member_info_register db phone hfind
  have hnewrow : ((get_member_info_production db phone).2).members.find?
      (fun x => x.phone_number == phone && x.active) =
      some { id := db.next_member_id, phone_number := phone, name := "Member " ++ pytakeRight 4 phone, is_admin := false, active := true, message_count := 0 } := by
    rw [hreg]
    exact find?_append_singleton _ _ _ hfind (by simp)
  have hadmin_db1 : is_admin_production ((get_member_info_production db phone).2) phone = false := by
    simp only [is_admin_production, hnewrow]
  have hadm : handle_admin_commands_production ((get_member_info_production db phone).2)
      phone (pystripS body) now = none := by
    simp only [handle_admin_commands_production, hadmin_db1]
    rfl
  have hh : (pyupper (pystripS body) == "HELP") = false := by
    simpa using hhelp
  obtain ⟨hb, hr, hmem⟩ := broadcast_smart_creates ((get_member_info_production db phone).2)
    phone (pystripS body) tr now _ hnewrow rfl hrec
  have hframe := (get_member_info_db_frame db phone).2
  refine ⟨{ id := ((get_member_info_production db phone).2).next_message_id, from_phone := phone, from_name := "Member " ++ pytakeRight 4 phone, original_message := pystripS body, reaction_summary := "", last_reaction_update := none, sent_at := now }, ?_, rfl, rfl, ?_, ?_⟩
  · simp only [handle_incoming_message_production, hdet, handle_non_reaction_path, hadm,
      hh, Bool.false_eq_true, if_false]
    rw [hb, hframe.1]
  · simp only [handle_incoming_message_production, hdet, handle_non_reaction_path, hadm,
      hh, Bool.false_eq_true, if_false]
    exact hr
  · simp only [handle_incoming_message_production, hdet, handle_non_reaction_path, hadm,
      hh, Bool.false_eq_true, if_false]
    rw [hmem, hreg]
    refine ⟨{ id := db.next_member_id, phone_number := phone, name := "Member " ++ pytakeRight 4 phone, is_admin := false, active := true, message_count := 1 }, ?_, rfl, rfl, rfl⟩
    have hin : ({ id := db.next_member_id, phone_number := phone, name := "Member " ++ pytakeRight 4 phone, is_admin := false, active := true, message_count := 0 } : MemberRow) ∈
        db.members ++ [{ id := db.next_member_id, phone_number := phone, name := "Member " ++ pytakeRight 4 phone, is_admin := false, active := true, message_count := 0 }] :=
      List.mem_append_right _ (List.mem_singleton.mpr rfl)
    have hmm := List.mem_map_of_mem (fun x : MemberRow =>
      if x.phone_number == phone then { x with message_count := x.message_count + 1 } else x) hin
    simp only [beq_self_eq_true, if_true] at hmm
    exact hmm

/-- Witness for C7: the concrete unregistered sender of `db_c7`. -/
theorem C7_amended_autoregister_witness :
    ∃ row : BroadcastRow,
      (handle_incoming_message_production db_c7 c7_sender c7_body tr_ok 1000).db.broadcast_messages =
        db_c7.broadcast_messages ++ [row] ∧
      row.from_phone = c7_sender ∧
      row.original_message = pystripS c7_body ∧
      (handle_incoming_message_production db_c7 c7_sender c7_body tr_ok 1000).reply = none ∧
      ∃ m ∈ (handle_incoming_message_production db_c7 c7_sender c7_body tr_ok 1000).db.members,
        m.phone_number = c7_sender ∧ m.is_admin = false ∧ m.active = true :=
  C7_amended_autoregister db_c7 c7_sender c7_body tr_ok 1000 (by decide) (by decide)
    (by decide) (by decide)

/-! ## Claim C9 -/

/-- Scheduler steps never change the multiset of reaction ids. -/
theorem sched_step_ids (st : SchedulerState) (e : SchedEvent) :
    (sched_step st e).1.reactions.map (fun r => r.id) =
      st.reactions.map (fun r => r.id) := by
  cases e with
  | broadcast_accepted now => rfl
  | pause_timer_tick now =>
    simp only [sched_step, fire_pause_digest]
    cases hsd : st.silence_deadline with
    | none => rfl
    | some dl =>
      dsimp only
      by_cases hle : dl ≤ now
      · rw [if_pos hle]
        simp only [mark_processed, List.map_map]
        apply List.map_congr_left
        intro r _
        simp only [Function.comp_apply]
        split <;> rfl
      · rw [if_neg hle]
  | daily_timer_fire =>
    simp only [sched_step, fire_daily_digest, mark_processed, List.map_map]
    apply List.map_congr_left
    intro r _
    simp only [Function.comp_apply]
    split <;> rfl

/-- Once a reaction id is processed, it stays processed across any scheduler
step. -/
theorem sched_step_processed_mono (st : SchedulerState) (e : SchedEvent) (i : Nat)
    (h : i ∈ (st.reactions.filter (fun r => r.processed)).map (fun r => r.id)) :
    i ∈ ((sched_step st e).1.reactions.filter (fun r => r.processed)).map
      (fun r => r.id) := by
  obtain ⟨y, hy, hyid⟩ := List.mem_map.mp h
  have hymem : y ∈ st.reactions := List.mem_of_mem_filter hy
  have hyproc : y.processed = true := by simpa using List.of_mem_filter hy
  have hmark : ∀ (ids : List Nat),
      i ∈ ((st.reactions.map (fun r =>
        if ids.contains r.id then { r with processed := true } else r)).filter
          (fun r => r.processed)).map (fun r => r.id) := by
    intro ids
    rw [List.mem_map]
    refine ⟨if ids.contains y.id then { y with processed := true } else y, ?_, ?_⟩
    · rw [List.mem_filter]
      refine ⟨List.mem_map_of_mem _ hymem, ?_⟩
      split
      · rfl
      · exact hyproc
    · split
      · exact hyid
      · exact hyid
  cases e with
  | broadcast_accepted now => exact h
  | pause_timer_tick now =>
    simp only [sched_step, fire_pause_digest]
    cases hsd : st.silence_deadline with
    | none => exact h
    | some dl =>
      dsimp only
      by_cases hle : dl ≤ now
      · rw [if_pos hle]
        exact hmark _
      · rw [if_neg hle]
        exact h
  | daily_timer_fire =>
    simp only [sched_step, fire_daily_digest, mark_processed]
    exact hmark _

/-- Every reaction in an emitted digest was an unprocessed stored reaction. -/
theorem sched_step_digest_unprocessed (st : SchedulerState) (e : SchedEvent)
    (d : List DigestReaction) (h : (sched_step st e).2 = some d) :
    ∀ x ∈ d, x ∈ st.reactions ∧ x.processed = false := by
  intro x hx
  cases e with
  | broadcast_accepted now => simp [sched_step] at h
  | pause_timer_tick now =>
    simp only [sched_step, fire_pause_digest] at h
    cases hsd : st.silence_deadline with
    | none => rw [hsd] at h; simp at h
    | some dl =>
      rw [hsd] at h
      dsimp only at h
      by_cases hle : dl ≤ now
      · rw [if_pos hle] at h
        simp only [Option.some.injEq] at h
        subst h
        have hm := List.mem_filter.mp hx
        refine ⟨hm.1, ?_⟩
        have := hm.2
        simp only [Bool.and_eq_true, Bool.not_eq_true'] at this
        exact this.1.2
      · rw [if_neg hle] at h
        simp at h
  | daily_timer_fire =>
    simp only [sched_step, fire_daily_digest, Option.some.injEq] at h
    subst h
    have hm := List.mem_filter.mp hx
    refine ⟨hm.1, ?_⟩
    have := hm.2
    simp only [Bool.not_eq_true'] at this
    exact this

/-- Processed reactions are never reconsidered by any later digest, pause or
daily. -/
theorem sched_never_reconsider :
    ∀ (events : List SchedEvent) (st : SchedulerState) (i : Nat),
      (st.reactions.map (fun r => r.id)).Nodup →
      i ∈ (st.reactions.filter (fun r => r.processed)).map (fun r => r.id) →
      ∀ d ∈ (sched_run st events).2, ∀ x ∈ d, x.id ≠ i := by
  intro events
  induction events with
  | nil =>
    intro st i _ _ d hd
    simp [sched_run] at hd
  | cons e es ih =>
    intro st i hnd hproc d hd x hx hxi
    simp only [sched_run] at hd
    rw [List.mem_append] at hd
    cases hd with
    | inl hd1 =>
      cases hstep : (sched_step st e).2 with
      | none =>
        rw [hstep] at hd1
        simp at hd1
      | some d0 =>
        rw [hstep] at hd1
        simp only [List.mem_singleton] at hd1
        subst hd1
        obtain ⟨hxmem, hxproc⟩ := sched_step_digest_unprocessed st e _ hstep x hx
        obtain ⟨y, hy, hyid⟩ := List.mem_map.mp hproc
        have hymem : y ∈ st.reactions := List.mem_of_mem_filter hy
        have hyproc : y.processed = true := by simpa using List.of_mem_filter hy
        have hxy : x = y :=
          List.inj_on_of_nodup_map hnd hxmem hymem (by rw [hxi, hyid])
        rw [hxy, hyproc] at hxproc
        exact Bool.noConfusion hxproc
    | inr hd2 =>
      refine ih (sched_step st e).1 i ?_ (sched_step_processed_mono st e i hproc) d hd2 x hx hxi
      rw [sched_step_ids]
      exact hnd

/-- Claim C9 (spec-modelled; the DigestScheduler is absent from `src/app.py`):
accepting a non-reaction broadcast resets the single-shot silence timer to 30
minutes; when the timer fires (the deadline passed with no reset), the pause
digest consists of exactly the active, not-yet-processed reactions created
within the last 2 hours, the timer is cleared (single-shot), those reactions
are marked processed, and a processed reaction is never reconsidered by any
later pause or daily digest. -/
theorem C9_digest_scheduler :
    (∀ (st : SchedulerState) (now : Nat),
      (sched_step st (SchedEvent.broadcast_accepted now)).1.silence_deadline =
        some (now + 30 * 60)) ∧
    (∀ (st : SchedulerState) (now d : Nat),
      st.silence_deadline = some d → d ≤ now →
      (sched_step st (SchedEvent.pause_timer_tick now)).2 =
        some (st.reactions.filter (fun r =>
          r.is_active && !r.processed && now ≤ r.created_at + 2 * 60 * 60)) ∧
      (sched_step st (SchedEvent.pause_timer_tick now)).1.silence_deadline = none ∧
      (∀ x ∈ (sched_step st (SchedEvent.pause_timer_tick now)).1.reactions,
        x.id ∈ (pause_digest_eligible st now).map (fun r => r.id) →
        x.processed = true)) ∧
    (∀ (events : List SchedEvent) (st : SchedulerState) (i : Nat),
      (st.reactions.map (fun r => r.id)).Nodup →
      i ∈ (st.reactions.filter (fun r => r.processed)).map (fun r => r.id) →
      ∀ d ∈ (sched_run st events).2, ∀ x ∈ d, x.id ≠ i) := by
  refine ⟨fun st now => rfl, ?_, sched_never_reconsider⟩
  intro st now d hsd hle
  have hstep : sched_step st (SchedEvent.pause_timer_tick now) =
      ((fire_pause_digest st now).2, (fire_pause_digest st now).1) := rfl
  have hfire : fire_pause_digest st now =
      (some (pause_digest_eligible st now),
       { mark_processed st ((pause_digest_eligible st now).map (fun r => r.id)) with
         silence_deadline := none }) := by
    simp only [fire_pause_digest, hsd]
    rw [if_pos hle]
  refine ⟨?_, ?_, ?_⟩
  · rw [hstep, hfire]
    rfl
  · rw [hstep, hfire]
  · intro x hx hxid
    rw [hstep, hfire] at hx
    simp only [mark_processed] at hx
    obtain ⟨y, _, hgy⟩ := List.mem_map.mp hx
    by_cases hc : ((pause_digest_eligible st now).map (fun r => r.id)).contains y.id
    · rw [if_pos hc] at hgy
      rw [← hgy]
    · rw [if_neg hc] at hgy
      subst hgy
      exact absurd (List.elem_eq_true_of_mem hxid) hc

/-- Witness for C9: the concrete scheduler state `c9_state` at time 10000 -
the pause digest picks exactly the recent unprocessed active reaction, and the
already-processed reaction id 3 never reappears in any digest. -/
theorem C9_digest_scheduler_witness :
    c9_state.silence_deadline = some 1800 ∧
    (sched_step c9_state (SchedEvent.pause_timer_tick 10000)).2 =
      some (c9_state.reactions.filter (fun r =>
        r.is_active && !r.processed && 10000 ≤ r.created_at + 2 * 60 * 60)) ∧
    (∀ d ∈ (sched_run c9_state
        [SchedEvent.pause_timer_tick 10000, SchedEvent.daily_timer_fire]).2,
      ∀ x ∈ d, x.id ≠ 3) := by
  refine ⟨rfl,
    (C9_digest_scheduler.2.1 c9_state 10000 1800 rfl (by decide)).1,
    C9_digest_scheduler.2.2
      [SchedEvent.pause_timer_tick 10000, SchedEvent.daily_timer_fire]
      c9_state 3 (by decide) (by decide)⟩

end ChurchSMS
